import Mathlib

/-!
Verification development for the new-api rate-limiting core.

Shallow embedding of:
- setting/rate_limit.go: policy store (group override maps, JSON accessors,
  validators) and the channel-health gatekeeper ShouldDisableChannel
  (service package, second part of the same source file);
- middleware/model-rate-limit.go: the sliding-window counter, the
  success/total tier checks for the three quota scopes (legacy per-user,
  per-key minute, per-key daily) and the admission orchestrator
  ModelRequestRateLimit.

Modelling conventions:
- Go ints and int64s are Lean Int; timestamps are Int (the Go code stores
  wall-clock times at sub-second precision and compares truncated second
  differences, so integer seconds are the granularity at which the code's
  comparisons are exact).
- Redis is modelled as a pure store: each key holds a list of timestamps
  (newest first, as produced by LPush).  TTLs are not part of the state
  (nothing in the code reads them back); Expire calls are recorded as
  events in the operation trace instead.
- Every backend interaction is logged into a trace of events (Ev below);
  claims about ordering, parameterization and frame conditions are stated
  over this trace.
- gin's Context is reduced to the fields the code reads (ReqCtx); an
  abortWithOpenAiMessage call is an Ev.abortEv trace entry carrying the
  HTTP status and the literal message string, and c.Next() is the Ev.next
  trace entry.  A call of c.Next() after c.Abort() runs no further
  handlers (gin semantics), so an aborted run never contains Ev.next.
- The process-wide setting variables are gathered into a Settings value
  passed explicitly.
-/

/-- Mutable process-wide settings of setting/rate_limit.go, lines 12-33.
Group override maps are association lists `group ↦ (totalMax, successMax)`
(Go `map[string][2]int`; iteration order fixed to list order). -/
structure Settings where
  modelRequestRateLimitEnabled : Bool
  modelRequestRateLimitDurationMinutes : Int
  modelRequestRateLimitCount : Int
  modelRequestRateLimitSuccessCount : Int
  modelRequestRateLimitGroup : List (String × Int × Int)
  tokenRateLimitEnabled : Bool
  tokenRateLimitDurationMinutes : Int
  tokenRateLimitCount : Int
  tokenRateLimitSuccessCount : Int
  tokenRateLimitGroup : List (String × Int × Int)
  tokenDailyRateLimitEnabled : Bool
  tokenDailyRateLimitCount : Int
  tokenDailyRateLimitSuccessCount : Int
  tokenDailyRateLimitGroup : List (String × Int × Int)
  redisEnabled : Bool
deriving DecidableEq

/-- GetGroupRateLimit (setting/rate_limit.go lines 54-67): resolve the
per-user group override; `none` plays the role of `found = false`
(covering both a missing entry and a nil map). -/
def GetGroupRateLimit (g : List (String × Int × Int)) (group : String) : Option (Int × Int) :=
  g.lookup group

/-- GetTokenRateLimit (setting/rate_limit.go lines 107-120). -/
def GetTokenRateLimit (g : List (String × Int × Int)) (group : String) : Option (Int × Int) :=
  g.lookup group

/-- GetTokenDailyRateLimit (setting/rate_limit.go lines 160-173). -/
def GetTokenDailyRateLimit (g : List (String × Int × Int)) (group : String) : Option (Int × Int) :=
  g.lookup group

/-- Administrative JSON blob delivered to the update / validation paths,
described by how Go's json.Unmarshal treats it when decoding into a fresh
`map[string][2]int`:
- `entries es` — a successfully-parsed `{"<group>": [total, success], ...}`
  object;
- `syntaxError` — not valid JSON: Unmarshal's up-front validity check
  fails, it returns a SyntaxError and stores nothing in the map;
- `typeMismatch stored` — valid JSON whose content does not fit the
  target type (for example `{"x": 3}`): Unmarshal decodes as much as it
  can, leaving the entries `stored` in the map (for `{"x": 3}` it stores
  `x ↦ [0, 0]`), and returns an UnmarshalTypeError. -/
inductive JSONBlob
  | syntaxError
  | typeMismatch (stored : List (String × Int × Int))
  | entries (es : List (String × Int × Int))
deriving DecidableEq

/-- UpdateModelRequestRateLimitGroupByJSONString (setting/rate_limit.go
lines 46-52).  The Go body first replaces the map with a freshly
allocated empty map (`ModelRequestRateLimitGroup = make(...)`) and only
then runs json.Unmarshal into it, returning its error.  The result is
`(error?, map after the call)`; the prior map `old` is discarded
unconditionally, so after a failed parse the map holds exactly what the
failed Unmarshal wrote into the fresh map: nothing for a syntax error,
the partially-decoded entries for a type mismatch. -/
def UpdateModelRequestRateLimitGroupByJSONString (old : List (String × Int × Int))
    (blob : JSONBlob) : Option String × List (String × Int × Int) :=
  match old, blob with
  | _, .syntaxError => (some "unmarshal error", [])
  | _, .typeMismatch stored => (some "unmarshal error", stored)
  | _, .entries es => (none, es)

/-- UpdateTokenRateLimitGroupByJSONString (setting/rate_limit.go lines
99-105); body identical in shape to the model-request variant. -/
def UpdateTokenRateLimitGroupByJSONString (old : List (String × Int × Int))
    (blob : JSONBlob) : Option String × List (String × Int × Int) :=
  match old, blob with
  | _, .syntaxError => (some "unmarshal error", [])
  | _, .typeMismatch stored => (some "unmarshal error", stored)
  | _, .entries es => (none, es)

/-- UpdateTokenDailyRateLimitGroupByJSONString (setting/rate_limit.go
lines 152-158); body identical in shape to the model-request variant. -/
def UpdateTokenDailyRateLimitGroupByJSONString (old : List (String × Int × Int))
    (blob : JSONBlob) : Option String × List (String × Int × Int) :=
  match old, blob with
  | _, .syntaxError => (some "unmarshal error", [])
  | _, .typeMismatch stored => (some "unmarshal error", stored)
  | _, .entries es => (none, es)

/-- Result of the *Group2JSONString accessors: the returned string and
whether the failure was logged via common.SysLog.  The accessor input is
the result of json.Marshal on the current map: `some s` on success,
`none` on a marshalling error (in which case the Go byte slice is nil and
`string(jsonBytes)` is the empty string). -/
def ModelRequestRateLimitGroup2JSONString (marshalled : Option String) : String × Bool :=
  match marshalled with
  | some s => (s, false)
  | none => ("", true)

/-- TokenRateLimitGroup2JSONString (setting/rate_limit.go lines 88-97);
body identical in shape to the model-request variant (lines 35-44). -/
def TokenRateLimitGroup2JSONString (marshalled : Option String) : String × Bool :=
  match marshalled with
  | some s => (s, false)
  | none => ("", true)

/-- TokenDailyRateLimitGroup2JSONString (setting/rate_limit.go lines
141-150); body identical in shape to the model-request variant. -/
def TokenDailyRateLimitGroup2JSONString (marshalled : Option String) : String × Bool :=
  match marshalled with
  | some s => (s, false)
  | none => ("", true)

/-- Errors produced by the Check*Group validators, mirroring the two
fmt.Errorf messages plus the json.Unmarshal failure. -/
inductive GroupCheckError
  | unmarshalError
  | negativeValues (group : String) (total success : Int)
  | exceedsMaxInt32 (group : String) (total success : Int)
deriving DecidableEq

/-- math.MaxInt32. -/
def maxInt32 : Int := 2147483647

/-- Validation loop of CheckModelRequestRateLimitGroup
(setting/rate_limit.go lines 69-85): the per-user scope requires
`limits[0] >= 0` and `limits[1] >= 1`, both at most math.MaxInt32. -/
def checkModelRequestRateLimitEntries : List (String × Int × Int) → Option GroupCheckError
  | [] => none
  | (group, a, b) :: rest =>
    if a < 0 ∨ b < 1 then some (.negativeValues group a b)
    else if a > maxInt32 ∨ b > maxInt32 then some (.exceedsMaxInt32 group a b)
    else checkModelRequestRateLimitEntries rest

/-- CheckModelRequestRateLimitGroup (setting/rate_limit.go lines 69-85). -/
def CheckModelRequestRateLimitGroup : JSONBlob → Option GroupCheckError
  | .syntaxError => some .unmarshalError
  | .typeMismatch _ => some .unmarshalError
  | .entries es => checkModelRequestRateLimitEntries es

/-- Validation loop of CheckTokenRateLimitGroup (setting/rate_limit.go
lines 122-138): the per-key minute scope requires `limits[0] >= 0` and
`limits[1] >= 0`, both at most math.MaxInt32. -/
def checkTokenRateLimitEntries : List (String × Int × Int) → Option GroupCheckError
  | [] => none
  | (group, a, b) :: rest =>
    if a < 0 ∨ b < 0 then some (.negativeValues group a b)
    else if a > maxInt32 ∨ b > maxInt32 then some (.exceedsMaxInt32 group a b)
    else checkTokenRateLimitEntries rest

/-- CheckTokenRateLimitGroup (setting/rate_limit.go lines 122-138). -/
def CheckTokenRateLimitGroup : JSONBlob → Option GroupCheckError
  | .syntaxError => some .unmarshalError
  | .typeMismatch _ => some .unmarshalError
  | .entries es => checkTokenRateLimitEntries es

/-- Validation loop of CheckTokenDailyRateLimitGroup
(setting/rate_limit.go lines 175-191): same bounds as the per-key minute
scope (`limits[1] >= 0` is allowed). -/
def checkTokenDailyRateLimitEntries : List (String × Int × Int) → Option GroupCheckError
  | [] => none
  | (group, a, b) :: rest =>
    if a < 0 ∨ b < 0 then some (.negativeValues group a b)
    else if a > maxInt32 ∨ b > maxInt32 then some (.exceedsMaxInt32 group a b)
    else checkTokenDailyRateLimitEntries rest

/-- CheckTokenDailyRateLimitGroup (setting/rate_limit.go lines 175-191). -/
def CheckTokenDailyRateLimitGroup : JSONBlob → Option GroupCheckError
  | .syntaxError => some .unmarshalError
  | .typeMismatch _ => some .unmarshalError
  | .entries es => checkTokenDailyRateLimitEntries es

/-- Model of Go strings.ToLower restricted to ASCII case mapping (every
substring the gatekeeper searches for is ASCII). -/
def strToLower (s : String) : String := String.mk (s.data.map Char.toLower)

/-- Model of Go strings.Contains: `sub` occurs contiguously in `s`. -/
def containsB (s sub : String) : Bool :=
  (List.range (s.data.length + 1)).any (fun i => ((s.data.drop i).take sub.data.length) == sub.data)

/-- Transient-error substrings of ShouldDisableChannel
(service code, setting/rate_limit.go second part, line 211). -/
def transientSubstrings : List String :=
  ["no candidates returned", "deadline exceeded", "timeout", "connect",
   "do request failed", "provider returned error", "internal server error",
   "no response received"]

/-- Fields of types.NewAPIError that ShouldDisableChannel reads:
err.Error() (the message), err.StatusCode, err.GetErrorType(). -/
structure NewAPIError where
  message : String
  statusCode : Int
  errType : String
deriving DecidableEq

/-- ShouldDisableChannel (service code in setting/rate_limit.go second
part, lines 203-229): `autoDisable` is common.AutomaticDisableChannelEnabled
and `err = none` models a nil error pointer. -/
def ShouldDisableChannel (autoDisable : Bool) (err : Option NewAPIError) : Bool :=
  if ¬ autoDisable then false
  else match err with
  | none => false
  | some e =>
    let errMsg := strToLower e.message
    if transientSubstrings.any (fun sub => containsB errMsg sub) then false
    else if e.statusCode = 401 then true
    else if e.statusCode = 429 then false
    else if e.statusCode = 403 then true
    else if e.errType = "insufficient_quota" then true
    else false

/-- Trace events: every backend interaction of middleware/model-rate-limit.go,
plus the two gin interactions (abortWithOpenAiMessage and c.Next()). -/
inductive Ev
  | llen (key : String)
  | lindex (key : String) (i : Int)
  | lpush (key : String) (t : Int)
  | ltrim (key : String) (a b : Int)
  | expire (key : String) (seconds : Int)
  | tbAllow (key : String) (capacity rate requested : Int)
  | memReq (key : String) (maxCount duration : Int)
  | abortEv (status : Nat) (msg : String)
  | next
deriving DecidableEq

/-- Token-bucket state for one key: current tokens and last refill time
(spec §3, TokenBucketState). -/
structure TB where
  tokens : Int
  lastTime : Int
deriving DecidableEq

/-- Backend state: Redis timestamp lists (newest first), token buckets
(`none` = key not yet created), and the in-process limiter's per-key
timestamp store. -/
structure Backend where
  lists : String → List Int
  buckets : String → Option TB
  mem : String → List Int

/-- Pointwise update of a string-keyed store. -/
def upd {α : Type} (f : String → α) (k : String) (v : α) : String → α :=
  fun x => if x = k then v else f x

/-- Fields of the gin context that the middleware reads. -/
structure ReqCtx where
  tokenId : Int
  tokenGroup : String
  userGroup : String
  userId : Int
  handlerStatus : Nat
  now : Int
deriving DecidableEq

/-- Constants of middleware/model-rate-limit.go lines 19-22 and 171-176. -/
def ModelRequestRateLimitCountMark : String := "MRRL"

def ModelRequestRateLimitSuccessCountMark : String := "MRRLS"

def TokenRateLimitCountMark : String := "TRL"

def TokenRateLimitSuccessCountMark : String := "TRLS"

def TokenDailyRateLimitCountMark : String := "TDRL"

def TokenDailyRateLimitSuccessCountMark : String := "TDRLS"

/-- checkRedisRateLimit (middleware/model-rate-limit.go lines 25-62).
Returns `(some allowed, trace)`, or `(none, trace)` for the error branch
(time.Parse failing on a missing list entry; Redis round-trip errors are
outside this deterministic model).  The check never writes list state;
the only write-like effect is the Expire on the reject path, recorded in
the trace.  The Expire duration is always
setting.ModelRequestRateLimitDurationMinutes (line 57), whichever tier is
calling. -/
def checkRedisRateLimit (s : Settings) (lists : String → List Int) (now : Int)
    (key : String) (maxCount : Int) (duration : Int) : Option Bool × List Ev :=
  if maxCount = 0 then (some true, [])
  else
    if ((lists key).length : Int) < maxCount then (some true, [Ev.llen key])
    else
      match (lists key).getLast? with
      | none => (none, [Ev.llen key, Ev.lindex key (-1)])
      | some oldTime =>
        if now - oldTime < duration then
          (some false, [Ev.llen key, Ev.lindex key (-1),
            Ev.expire key (s.modelRequestRateLimitDurationMinutes * 60)])
        else (some true, [Ev.llen key, Ev.lindex key (-1)])

/-- recordRedisRequest (middleware/model-rate-limit.go lines 65-75):
LPush now, LTrim to the first maxCount entries, refresh expiry. -/
def recordRedisRequest (s : Settings) (lists : String → List Int) (now : Int)
    (key : String) (maxCount : Int) : (String → List Int) × List Ev :=
  if maxCount = 0 then (lists, [])
  else
    (upd lists key ((now :: lists key).take maxCount.toNat),
     [Ev.lpush key now, Ev.ltrim key 0 (maxCount - 1),
      Ev.expire key (s.modelRequestRateLimitDurationMinutes * 60)])

/-- Modelled from the spec: the token-bucket limiter package
(common/limiter, tb.Allow) is not under src.  Spec §4.3: atomic
read-refill-compare-consume; the bucket refills at `rate` tokens/second up
to `capacity` and an admitted check consumes `requested` tokens. -/
def tbAllowStep (tb : TB) (now capacity rate requested : Int) : Bool × TB :=
  let refilled := min capacity (tb.tokens + (now - tb.lastTime) * rate)
  if requested ≤ refilled then (true, { tokens := refilled - requested, lastTime := now })
  else (false, { tokens := refilled, lastTime := now })

/-- Modelled from the spec: a key the bucket backend has not seen starts
at full capacity (spec §4.3: the bucket reaches full capacity after one
window of inactivity, and §8 requires maxCount back-to-back admissions on
a fresh key). -/
def tbInitial (capacity now : Int) : TB := { tokens := capacity, lastTime := now }

/-- Modelled from the spec: inMemoryRateLimiter.Request (common package)
is not under src.  Spec §4.4: fused check-and-record over a rolling
window — reject once maxCount occurrences have been seen inside the last
`duration` seconds, admit and count otherwise; spec §4.2/§8: maxCount = 0
always admits and touches no state. -/
def memRequest (mem : String → List Int) (now : Int) (key : String)
    (maxCount duration : Int) : Bool × (String → List Int) :=
  if maxCount = 0 then (true, mem)
  else
    let inWindow := (mem key).filter (fun t => now - t < duration)
    if (inWindow.length : Int) < maxCount then (true, upd mem key (now :: inWindow))
    else (false, mem)

/-- Throttling message of redisRateLimitHandler step 1
(middleware/model-rate-limit.go line 95). -/
def userSuccessMsg (s : Settings) (n : Int) : String :=
  "您已达到请求数限制：" ++ toString s.modelRequestRateLimitDurationMinutes
    ++ "分钟内最多请求" ++ toString n ++ "次"

/-- Throttling message of redisRateLimitHandler step 2
(middleware/model-rate-limit.go line 119). -/
def userTotalMsg (s : Settings) (n : Int) : String :=
  "您已达到总请求数限制：" ++ toString s.modelRequestRateLimitDurationMinutes
    ++ "分钟内最多请求" ++ toString n ++ "次，包括失败次数，请检查您的请求是否正确"

/-- Throttling message of the key-minute success check
(middleware/model-rate-limit.go lines 232 and 319). -/
def tokenMinuteSuccessMsg (s : Settings) (n : Int) : String :=
  "您已达到密钥请求数限制：" ++ toString s.tokenRateLimitDurationMinutes
    ++ "分钟内最多请求" ++ toString n ++ "次"

/-- Throttling message of the key-minute total check
(middleware/model-rate-limit.go lines 256 and 311). -/
def tokenMinuteTotalMsg (s : Settings) (n : Int) : String :=
  "您已达到密钥总请求数限制：" ++ toString s.tokenRateLimitDurationMinutes
    ++ "分钟内最多请求" ++ toString n ++ "次（包括失败请求）"

/-- Throttling message of the key-daily success check
(middleware/model-rate-limit.go lines 381 and 468): a fixed string. -/
def tokenDailySuccessMsg : String := "您已达到每日请求数限制"

/-- Throttling message of the key-daily total check
(middleware/model-rate-limit.go lines 405 and 460): a fixed string. -/
def tokenDailyTotalMsg : String := "您已达到每日总请求数限制（包括失败请求）"

/-- Generic internal-error message used on backend failures. -/
def rateLimitCheckFailedMsg : String := "rate_limit_check_failed"

/-- checkTokenRateLimitRedis (middleware/model-rate-limit.go lines
218-262): step 1 checks the success sliding-window counter (if
successMaxCount > 0), step 2 the total token bucket (if totalMaxCount > 0).
Result is `(admitted, backend, trace)`; a rejection or backend error
appends the corresponding abortWithOpenAiMessage event. -/
def checkTokenRateLimitRedis (s : Settings) (b : Backend) (now : Int)
    (rateLimitKey : String) (totalMaxCount successMaxCount duration : Int) :
    Bool × Backend × List Ev :=
  let step1 : Bool × Backend × List Ev :=
    if 0 < successMaxCount then
      let successKey := "rateLimit:" ++ TokenRateLimitSuccessCountMark ++ ":" ++ rateLimitKey
      match checkRedisRateLimit s b.lists now successKey successMaxCount duration with
      | (none, e) => (false, b, e ++ [Ev.abortEv 500 rateLimitCheckFailedMsg])
      | (some false, e) =>
          (false, b, e ++ [Ev.abortEv 429 (tokenMinuteSuccessMsg s successMaxCount)])
      | (some true, e) => (true, b, e)
    else (true, b, [])
  match step1 with
  | (false, b1, e1) => (false, b1, e1)
  | (true, b1, e1) =>
    if 0 < totalMaxCount then
      let totalKey := "rateLimit:" ++ TokenRateLimitCountMark ++ ":" ++ rateLimitKey
      let tb0 := (b1.buckets totalKey).getD (tbInitial (totalMaxCount * duration) now)
      let r := tbAllowStep tb0 now (totalMaxCount * duration) totalMaxCount duration
      let b2 : Backend := { b1 with buckets := upd b1.buckets totalKey (some r.2) }
      let e2 := e1 ++ [Ev.tbAllow totalKey (totalMaxCount * duration) totalMaxCount duration]
      if r.1 then (true, b2, e2)
      else (false, b2, e2 ++ [Ev.abortEv 429 (tokenMinuteTotalMsg s totalMaxCount)])
    else (true, b1, e1)

/-- checkTokenRateLimitMemory (middleware/model-rate-limit.go lines
303-325): step 1 checks-and-counts the total counter (if
totalMaxCount > 0), step 2 probes the success limit on the throwaway
`_check` key (if successMaxCount > 0). -/
def checkTokenRateLimitMemory (s : Settings) (b : Backend) (now : Int)
    (rateLimitKey : String) (totalMaxCount successMaxCount duration : Int) :
    Bool × Backend × List Ev :=
  let totalKey := TokenRateLimitCountMark ++ rateLimitKey
  let successKey := TokenRateLimitSuccessCountMark ++ rateLimitKey
  let step1 : Bool × Backend × List Ev :=
    if 0 < totalMaxCount then
      let r := memRequest b.mem now totalKey totalMaxCount duration
      (r.1, { b with mem := r.2 }, [Ev.memReq totalKey totalMaxCount duration])
    else (true, b, [])
  match step1 with
  | (false, b1, e1) =>
      (false, b1, e1 ++ [Ev.abortEv 429 (tokenMinuteTotalMsg s totalMaxCount)])
  | (true, b1, e1) =>
    if 0 < successMaxCount then
      let checkKey := successKey ++ "_check"
      let r := memRequest b1.mem now checkKey successMaxCount duration
      let b2 : Backend := { b1 with mem := r.2 }
      let e2 := e1 ++ [Ev.memReq checkKey successMaxCount duration]
      if r.1 then (true, b2, e2)
      else (false, b2, e2 ++ [Ev.abortEv 429 (tokenMinuteSuccessMsg s successMaxCount)])
    else (true, b1, e1)

/-- checkTokenRateLimit (middleware/model-rate-limit.go lines 179-215):
resolve the key-minute policy by token group and dispatch to the Redis or
memory implementation. -/
def checkTokenRateLimit (s : Settings) (ctx : ReqCtx) (b : Backend) :
    Bool × Backend × List Ev :=
  if ¬ s.tokenRateLimitEnabled then (true, b, [])
  else if ctx.tokenId = 0 then (true, b, [])
  else
    let lim := (GetTokenRateLimit s.tokenRateLimitGroup ctx.tokenGroup).getD
      (s.tokenRateLimitCount, s.tokenRateLimitSuccessCount)
    if lim.1 = 0 ∧ lim.2 = 0 then (true, b, [])
    else
      let rateLimitKey := toString ctx.tokenId
      let duration := s.tokenRateLimitDurationMinutes * 60
      if s.redisEnabled then
        checkTokenRateLimitRedis s b ctx.now rateLimitKey lim.1 lim.2 duration
      else
        checkTokenRateLimitMemory s b ctx.now rateLimitKey lim.1 lim.2 duration

/-- recordTokenRateLimitSuccess (middleware/model-rate-limit.go lines
265-300): after a successful request, commit the key-minute success
counter. -/
def recordTokenRateLimitSuccess (s : Settings) (ctx : ReqCtx) (b : Backend) :
    Backend × List Ev :=
  if ¬ s.tokenRateLimitEnabled then (b, [])
  else if ctx.tokenId = 0 then (b, [])
  else
    let successMaxCount := ((GetTokenRateLimit s.tokenRateLimitGroup ctx.tokenGroup).map
      Prod.snd).getD s.tokenRateLimitSuccessCount
    if successMaxCount = 0 then (b, [])
    else
      let rateLimitKey := toString ctx.tokenId
      if s.redisEnabled then
        let successKey := "rateLimit:" ++ TokenRateLimitSuccessCountMark ++ ":" ++ rateLimitKey
        let r := recordRedisRequest s b.lists ctx.now successKey successMaxCount
        ({ b with lists := r.1 }, r.2)
      else
        let duration := s.tokenRateLimitDurationMinutes * 60
        let successKey := TokenRateLimitSuccessCountMark ++ rateLimitKey
        let r := memRequest b.mem ctx.now successKey successMaxCount duration
        ({ b with mem := r.2 }, [Ev.memReq successKey successMaxCount duration])

/-- checkTokenDailyRateLimitRedis (middleware/model-rate-limit.go lines
367-411): same shape as the minute tier, with the fixed daily messages. -/
def checkTokenDailyRateLimitRedis (s : Settings) (b : Backend) (now : Int)
    (rateLimitKey : String) (totalMaxCount successMaxCount duration : Int) :
    Bool × Backend × List Ev :=
  let step1 : Bool × Backend × List Ev :=
    if 0 < successMaxCount then
      let successKey := "rateLimit:" ++ TokenDailyRateLimitSuccessCountMark ++ ":" ++ rateLimitKey
      match checkRedisRateLimit s b.lists now successKey successMaxCount duration with
      | (none, e) => (false, b, e ++ [Ev.abortEv 500 rateLimitCheckFailedMsg])
      | (some false, e) => (false, b, e ++ [Ev.abortEv 429 tokenDailySuccessMsg])
      | (some true, e) => (true, b, e)
    else (true, b, [])
  match step1 with
  | (false, b1, e1) => (false, b1, e1)
  | (true, b1, e1) =>
    if 0 < totalMaxCount then
      let totalKey := "rateLimit:" ++ TokenDailyRateLimitCountMark ++ ":" ++ rateLimitKey
      let tb0 := (b1.buckets totalKey).getD (tbInitial (totalMaxCount * duration) now)
      let r := tbAllowStep tb0 now (totalMaxCount * duration) totalMaxCount duration
      let b2 : Backend := { b1 with buckets := upd b1.buckets totalKey (some r.2) }
      let e2 := e1 ++ [Ev.tbAllow totalKey (totalMaxCount * duration) totalMaxCount duration]
      if r.1 then (true, b2, e2)
      else (false, b2, e2 ++ [Ev.abortEv 429 tokenDailyTotalMsg])
    else (true, b1, e1)

/-- checkTokenDailyRateLimitMemory (middleware/model-rate-limit.go lines
452-474): total first, then the `_check` probe for the success limit. -/
def checkTokenDailyRateLimitMemory (s : Settings) (b : Backend) (now : Int)
    (rateLimitKey : String) (totalMaxCount successMaxCount duration : Int) :
    Bool × Backend × List Ev :=
  let totalKey := TokenDailyRateLimitCountMark ++ rateLimitKey
  let successKey := TokenDailyRateLimitSuccessCountMark ++ rateLimitKey
  let step1 : Bool × Backend × List Ev :=
    if 0 < totalMaxCount then
      let r := memRequest b.mem now totalKey totalMaxCount duration
      (r.1, { b with mem := r.2 }, [Ev.memReq totalKey totalMaxCount duration])
    else (true, b, [])
  match step1 with
  | (false, b1, e1) => (false, b1, e1 ++ [Ev.abortEv 429 tokenDailyTotalMsg])
  | (true, b1, e1) =>
    if 0 < successMaxCount then
      let checkKey := successKey ++ "_check"
      let r := memRequest b1.mem now checkKey successMaxCount duration
      let b2 : Backend := { b1 with mem := r.2 }
      let e2 := e1 ++ [Ev.memReq checkKey successMaxCount duration]
      if r.1 then (true, b2, e2)
      else (false, b2, e2 ++ [Ev.abortEv 429 tokenDailySuccessMsg])
    else (true, b1, e1)

/-- checkTokenDailyRateLimit (middleware/model-rate-limit.go lines
328-364): fixed 24-hour window (86400 seconds). -/
def checkTokenDailyRateLimit (s : Settings) (ctx : ReqCtx) (b : Backend) :
    Bool × Backend × List Ev :=
  if ¬ s.tokenDailyRateLimitEnabled then (true, b, [])
  else if ctx.tokenId = 0 then (true, b, [])
  else
    let lim := (GetTokenDailyRateLimit s.tokenDailyRateLimitGroup ctx.tokenGroup).getD
      (s.tokenDailyRateLimitCount, s.tokenDailyRateLimitSuccessCount)
    if lim.1 = 0 ∧ lim.2 = 0 then (true, b, [])
    else
      let rateLimitKey := toString ctx.tokenId
      let duration : Int := 86400
      if s.redisEnabled then
        checkTokenDailyRateLimitRedis s b ctx.now rateLimitKey lim.1 lim.2 duration
      else
        checkTokenDailyRateLimitMemory s b ctx.now rateLimitKey lim.1 lim.2 duration

/-- recordTokenDailySuccess (middleware/model-rate-limit.go lines
414-449). -/
def recordTokenDailySuccess (s : Settings) (ctx : ReqCtx) (b : Backend) :
    Backend × List Ev :=
  if ¬ s.tokenDailyRateLimitEnabled then (b, [])
  else if ctx.tokenId = 0 then (b, [])
  else
    let successMaxCount := ((GetTokenDailyRateLimit s.tokenDailyRateLimitGroup ctx.tokenGroup).map
      Prod.snd).getD s.tokenDailyRateLimitSuccessCount
    if successMaxCount = 0 then (b, [])
    else
      let rateLimitKey := toString ctx.tokenId
      if s.redisEnabled then
        let successKey := "rateLimit:" ++ TokenDailyRateLimitSuccessCountMark ++ ":" ++ rateLimitKey
        let r := recordRedisRequest s b.lists ctx.now successKey successMaxCount
        ({ b with lists := r.1 }, r.2)
      else
        let duration : Int := 86400
        let successKey := TokenDailyRateLimitSuccessCountMark ++ rateLimitKey
        let r := memRequest b.mem ctx.now successKey successMaxCount duration
        ({ b with mem := r.2 }, [Ev.memReq successKey successMaxCount duration])

/-- redisRateLimitHandler (middleware/model-rate-limit.go lines 78-131):
the legacy per-user tier.  Step 1 checks the success sliding-window
counter (always called, even with successMaxCount 0 — line 88), step 2
consumes the total token bucket (only if totalMaxCount > 0).  A rejected
total check aborts without a `return` statement, but c.Next() after
c.Abort() runs no handler, so the protected handler still does not run.
If the handler ran and its status is below 400 the success counter is
recorded.  Result: `(response status, backend, trace)`. -/
def redisRateLimitHandler (s : Settings) (ctx : ReqCtx) (b : Backend)
    (duration totalMaxCount successMaxCount : Int) : Nat × Backend × List Ev :=
  let rateLimitKey := toString ctx.userId
  let successKey := "rateLimit:" ++ ModelRequestRateLimitSuccessCountMark ++ ":" ++ rateLimitKey
  match checkRedisRateLimit s b.lists ctx.now successKey successMaxCount duration with
  | (none, e1) => (500, b, e1 ++ [Ev.abortEv 500 rateLimitCheckFailedMsg])
  | (some false, e1) =>
      (429, b, e1 ++ [Ev.abortEv 429 (userSuccessMsg s successMaxCount)])
  | (some true, e1) =>
    let step2 : Bool × Backend × List Ev :=
      if 0 < totalMaxCount then
        let totalKey := "rateLimit:" ++ rateLimitKey
        let tb0 := (b.buckets totalKey).getD (tbInitial (totalMaxCount * duration) ctx.now)
        let r := tbAllowStep tb0 ctx.now (totalMaxCount * duration) totalMaxCount duration
        let b2 : Backend := { b with buckets := upd b.buckets totalKey (some r.2) }
        let e2 := e1 ++ [Ev.tbAllow totalKey (totalMaxCount * duration) totalMaxCount duration]
        if r.1 then (true, b2, e2)
        else (false, b2, e2 ++ [Ev.abortEv 429 (userTotalMsg s totalMaxCount)])
      else (true, b, e1)
    match step2 with
    | (false, b2, e2) => (429, b2, e2)
    | (true, b2, e2) =>
      if ctx.handlerStatus < 400 then
        let r := recordRedisRequest s b2.lists ctx.now successKey successMaxCount
        (ctx.handlerStatus, { b2 with lists := r.1 }, e2 ++ [Ev.next] ++ r.2)
      else (ctx.handlerStatus, b2, e2 ++ [Ev.next])

/-- memoryRateLimitHandler (middleware/model-rate-limit.go lines
134-168): the legacy per-user tier without Redis.  Step 1
checks-and-counts the total counter (if totalMaxCount > 0), step 2 probes
the success limit on the throwaway `_check` key (always called, with no
successMaxCount > 0 guard — line 154).  Rejections call c.Status(429) and
c.Abort() with no message body, modelled as an abort event with the empty
message.  On success the real success key is counted. -/
def memoryRateLimitHandler (s : Settings) (ctx : ReqCtx) (b : Backend)
    (duration totalMaxCount successMaxCount : Int) : Nat × Backend × List Ev :=
  let rateLimitKey := toString ctx.userId
  let totalKey := ModelRequestRateLimitCountMark ++ rateLimitKey
  let successKey := ModelRequestRateLimitSuccessCountMark ++ rateLimitKey
  let step1 : Bool × Backend × List Ev :=
    if 0 < totalMaxCount then
      let r := memRequest b.mem ctx.now totalKey totalMaxCount duration
      (r.1, { b with mem := r.2 }, [Ev.memReq totalKey totalMaxCount duration])
    else (true, b, [])
  match step1 with
  | (false, b1, e1) => (429, b1, e1 ++ [Ev.abortEv 429 ""])
  | (true, b1, e1) =>
    let checkKey := successKey ++ "_check"
    let r := memRequest b1.mem ctx.now checkKey successMaxCount duration
    let b2 : Backend := { b1 with mem := r.2 }
    let e2 := e1 ++ [Ev.memReq checkKey successMaxCount duration]
    if ¬ r.1 then (429, b2, e2 ++ [Ev.abortEv 429 ""])
    else
      if ctx.handlerStatus < 400 then
        let r3 := memRequest b2.mem ctx.now successKey successMaxCount duration
        (ctx.handlerStatus, { b2 with mem := r3.2 },
         e2 ++ [Ev.next] ++ [Ev.memReq successKey successMaxCount duration])
      else (ctx.handlerStatus, b2, e2 ++ [Ev.next])

/-- Response status of an aborted run: the status of the last
abortWithOpenAiMessage / c.Status call in the trace (`d` if none). -/
def lastAbortStatus : List Ev → Nat → Nat
  | [], d => d
  | Ev.abortEv st _ :: rest, _ => lastAbortStatus rest st
  | _ :: rest, d => lastAbortStatus rest d

/-- ModelRequestRateLimit (middleware/model-rate-limit.go lines 477-528):
the admission orchestrator.  Key-minute tier, then key-daily tier, then
the legacy per-user tier (or a bare c.Next() when that tier is disabled);
afterwards, if the response status is below 400, the key-minute and
key-daily success counters are recorded, in that order.  Result:
`(response status, backend, trace)`. -/
def ModelRequestRateLimit (s : Settings) (ctx : ReqCtx) (b : Backend) :
    Nat × Backend × List Ev :=
  match checkTokenRateLimit s ctx b with
  | (false, b1, e1) => (lastAbortStatus e1 0, b1, e1)
  | (true, b1, e1) =>
    match checkTokenDailyRateLimit s ctx b1 with
    | (false, b2, e2) => (lastAbortStatus e2 0, b2, e1 ++ e2)
    | (true, b2, e2) =>
      if ¬ s.modelRequestRateLimitEnabled then
        if ctx.handlerStatus < 400 then
          let r3 := recordTokenRateLimitSuccess s ctx b2
          let r4 := recordTokenDailySuccess s ctx r3.1
          (ctx.handlerStatus, r4.1, e1 ++ e2 ++ [Ev.next] ++ r3.2 ++ r4.2)
        else (ctx.handlerStatus, b2, e1 ++ e2 ++ [Ev.next])
      else
        let duration := s.modelRequestRateLimitDurationMinutes * 60
        let lim := (GetGroupRateLimit s.modelRequestRateLimitGroup ctx.userGroup).getD
          (s.modelRequestRateLimitCount, s.modelRequestRateLimitSuccessCount)
        let h := if s.redisEnabled then
            redisRateLimitHandler s ctx b2 duration lim.1 lim.2
          else
            memoryRateLimitHandler s ctx b2 duration lim.1 lim.2
        if h.1 < 400 then
          let r3 := recordTokenRateLimitSuccess s ctx h.2.1
          let r4 := recordTokenDailySuccess s ctx r3.1
          (h.1, r4.1, e1 ++ e2 ++ h.2.2 ++ r3.2 ++ r4.2)
        else (h.1, h.2.1, e1 ++ e2 ++ h.2.2)

/-- Suffix of a trace strictly after the first Ev.next (empty if the
protected handler never ran). -/
def evsAfterNext : List Ev → List Ev
  | [] => []
  | Ev.next :: rest => rest
  | _ :: rest => evsAfterNext rest

/-- Counter keys written by success-record operations in a trace (an
LPush on the Redis path, a fused Request on the memory path). -/
def successRecordKeys (evs : List Ev) : List String :=
  evs.filterMap fun e => match e with
    | Ev.lpush k _ => some k
    | Ev.memReq k _ _ => some k
    | _ => none

/-- Token-bucket consumption events of a trace, as
(key, capacity, rate, requested) tuples. -/
def tbEvents (evs : List Ev) : List (String × Int × Int × Int) :=
  evs.filterMap fun e => match e with
    | Ev.tbAllow k c r q => some (k, c, r, q)
    | _ => none

/-- Expire events of a trace, as (key, seconds) pairs. -/
def expireEvents (evs : List Ev) : List (String × Int) :=
  evs.filterMap fun e => match e with
    | Ev.expire k sec => some (k, sec)
    | _ => none

/-- Abort events of a trace, as (status, message) pairs. -/
def abortEvents (evs : List Ev) : List (Nat × String) :=
  evs.filterMap fun e => match e with
    | Ev.abortEv st m => some (st, m)
    | _ => none

/-- Empty backend: no Redis keys, no buckets, no in-process state. -/
def emptyBackend : Backend where
  lists := fun _ => []
  buckets := fun _ => none
  mem := fun _ => []

/-- Predicate `msg` names the number `n` (its decimal rendering occurs as
a substring), used to state the throttling-message disclosure claims. -/
def mentionsNum (msg : String) (n : Int) : Bool := containsB msg (toString n)

/-- Disablement condition as the claim words it ("true exactly when the
status is 401 or 403 or the error type is insufficient_quota"); kept
separate from ShouldDisableChannel so the two can be compared. -/
def c7ClaimDisable (e : NewAPIError) : Prop :=
  e.statusCode = 401 ∨ e.statusCode = 403 ∨ e.errType = "insufficient_quota"

/-- Sample configuration with all three tiers enabled and positive
limits, shared Redis backend selected. -/
def sampleSettings : Settings where
  modelRequestRateLimitEnabled := true
  modelRequestRateLimitDurationMinutes := 1
  modelRequestRateLimitCount := 5
  modelRequestRateLimitSuccessCount := 5
  modelRequestRateLimitGroup := []
  tokenRateLimitEnabled := true
  tokenRateLimitDurationMinutes := 1
  tokenRateLimitCount := 5
  tokenRateLimitSuccessCount := 5
  tokenRateLimitGroup := []
  tokenDailyRateLimitEnabled := true
  tokenDailyRateLimitCount := 3
  tokenDailyRateLimitSuccessCount := 3
  tokenDailyRateLimitGroup := []
  redisEnabled := true

/-- Sample request context: key id 7, user id 1, handler answers 200. -/
def sampleCtx : ReqCtx where
  tokenId := 7
  tokenGroup := "g"
  userGroup := "g"
  userId := 1
  handlerStatus := 200
  now := 0

theorem containsB_of_parts (t s : String) (x y : List Char) (h : x ++ s.data ++ y = t.data) :
    containsB t s = true := by
  unfold containsB
  apply List.any_eq_true.mpr
  refine ⟨x.length, List.mem_range.mpr ?_, ?_⟩
  · rw [← h]; simp; omega
  · rw [← h, List.append_assoc, List.drop_left, List.take_left]
    simp

/-- Claim C3, counterexample: with prior user-scope override map
[("a", 1, 2)], a syntactically malformed blob makes the update return an
error while the map afterwards is the empty map, and a type-mismatch blob
(such as `{"x": 3}`) makes it return an error while the map afterwards
holds the partially-decoded entry — in neither failure case is the prior
map restored, so the update is not all-or-nothing. -/
theorem C3_counterexample :
    (UpdateModelRequestRateLimitGroupByJSONString [("a", 1, 2)] JSONBlob.syntaxError).1.isSome = true ∧
    (UpdateModelRequestRateLimitGroupByJSONString [("a", 1, 2)] JSONBlob.syntaxError).2 ≠ [("a", 1, 2)] ∧
    (UpdateModelRequestRateLimitGroupByJSONString [("a", 1, 2)]
      (JSONBlob.typeMismatch [("x", 0, 0)])).1.isSome = true ∧
    (UpdateModelRequestRateLimitGroupByJSONString [("a", 1, 2)]
      (JSONBlob.typeMismatch [("x", 0, 0)])).2 ≠ [("a", 1, 2)] := by
  decide

/-- Claim C3, amended: for every scope, when the policy-update operation
returns an error the group-override map afterwards is determined by the
blob alone — it is whatever the failed parse left in the freshly
allocated map (nothing for a syntactically malformed blob, the
partially-decoded entries for a valid-JSON type mismatch) — and the map
that was in effect before the call has no influence on the post-state:
the update is not all-or-nothing. -/
theorem C3_amended (old old2 : List (String × Int × Int)) (blob : JSONBlob)
    (hfail : (UpdateModelRequestRateLimitGroupByJSONString old blob).1.isSome = true) :
    ((UpdateModelRequestRateLimitGroupByJSONString old blob).2 =
        (UpdateModelRequestRateLimitGroupByJSONString old2 blob).2 ∧
      (blob = JSONBlob.syntaxError →
        (UpdateModelRequestRateLimitGroupByJSONString old blob).2 = [])) ∧
    ((UpdateTokenRateLimitGroupByJSONString old blob).2 =
        (UpdateTokenRateLimitGroupByJSONString old2 blob).2 ∧
      (blob = JSONBlob.syntaxError →
        (UpdateTokenRateLimitGroupByJSONString old blob).2 = [])) ∧
    ((UpdateTokenDailyRateLimitGroupByJSONString old blob).2 =
        (UpdateTokenDailyRateLimitGroupByJSONString old2 blob).2 ∧
      (blob = JSONBlob.syntaxError →
        (UpdateTokenDailyRateLimitGroupByJSONString old blob).2 = [])) := by
  cases blob with
  | syntaxError => exact ⟨⟨rfl, fun _ => rfl⟩, ⟨rfl, fun _ => rfl⟩, ⟨rfl, fun _ => rfl⟩⟩
  | typeMismatch stored =>
      refine ⟨⟨rfl, ?_⟩, ⟨rfl, ?_⟩, ⟨rfl, ?_⟩⟩ <;> intro h <;> simp at h
  | entries es => simp [UpdateModelRequestRateLimitGroupByJSONString] at hfail

theorem C3_amended_witness :
    ((UpdateModelRequestRateLimitGroupByJSONString [("a", 1, 2)] JSONBlob.syntaxError).1.isSome = true ∧
      (UpdateModelRequestRateLimitGroupByJSONString [("a", 1, 2)]
        (JSONBlob.typeMismatch [("x", 0, 0)])).1.isSome = true) ∧
    (UpdateModelRequestRateLimitGroupByJSONString [("a", 1, 2)] JSONBlob.syntaxError).2 =
      (UpdateModelRequestRateLimitGroupByJSONString [] JSONBlob.syntaxError).2 ∧
    (UpdateModelRequestRateLimitGroupByJSONString [("a", 1, 2)] JSONBlob.syntaxError).2 = [] ∧
    (UpdateModelRequestRateLimitGroupByJSONString [("a", 1, 2)]
        (JSONBlob.typeMismatch [("x", 0, 0)])).2 =
      (UpdateModelRequestRateLimitGroupByJSONString []
        (JSONBlob.typeMismatch [("x", 0, 0)])).2 :=
  ⟨⟨by decide, by decide⟩,
   (C3_amended [("a", 1, 2)] [] JSONBlob.syntaxError (by decide)).1.1,
   (C3_amended [("a", 1, 2)] [] JSONBlob.syntaxError (by decide)).1.2 rfl,
   (C3_amended [("a", 1, 2)] [] (JSONBlob.typeMismatch [("x", 0, 0)]) (by decide)).1.1⟩

/-- Claim C9, counterexample: on serialization failure the user-scope
accessor logs, but returns the empty string (Go `string(nil)`), not the
empty-object string. -/
theorem C9_counterexample :
    (ModelRequestRateLimitGroup2JSONString none).2 = true ∧
    (ModelRequestRateLimitGroup2JSONString none).1 = "" ∧
    (ModelRequestRateLimitGroup2JSONString none).1 ≠ "\x7b\x7d" := by
  decide

/-- Claim C9, amended: for every scope, when serialization of the current
group-override map fails the JSON-string accessor logs the failure and
returns the empty string (not an error and not the empty-object string);
on success it returns the serialized form without logging. -/
theorem C9_amended :
    ModelRequestRateLimitGroup2JSONString none = ("", true) ∧
    TokenRateLimitGroup2JSONString none = ("", true) ∧
    TokenDailyRateLimitGroup2JSONString none = ("", true) ∧
    (∀ s, ModelRequestRateLimitGroup2JSONString (some s) = (s, false)) ∧
    (∀ s, TokenRateLimitGroup2JSONString (some s) = (s, false)) ∧
    (∀ s, TokenDailyRateLimitGroup2JSONString (some s) = (s, false)) :=
  ⟨rfl, rfl, rfl, fun _ => rfl, fun _ => rfl, fun _ => rfl⟩

/-- Claim C10: the user-scope validator rejects every group whose success
limit is 0 (with the negative-values error), both key-scope validators
accept a success limit of 0, and the single-group blob {"g": [5, 0]} is
accepted by both key-scope validators but rejected by the user-scope
validator. -/
theorem C10_confirmed :
    (∀ g a, 0 ≤ a →
      CheckModelRequestRateLimitGroup (.entries [(g, a, 0)]) =
        some (.negativeValues g a 0)) ∧
    (∀ es g a, (g, a, 0) ∈ es →
      (CheckModelRequestRateLimitGroup (.entries es)).isSome = true) ∧
    (∀ g a, 0 ≤ a → a ≤ maxInt32 →
      CheckTokenRateLimitGroup (.entries [(g, a, 0)]) = none) ∧
    (∀ g a, 0 ≤ a → a ≤ maxInt32 →
      CheckTokenDailyRateLimitGroup (.entries [(g, a, 0)]) = none) ∧
    CheckTokenRateLimitGroup (.entries [("g", 5, 0)]) = none ∧
    CheckTokenDailyRateLimitGroup (.entries [("g", 5, 0)]) = none ∧
    CheckModelRequestRateLimitGroup (.entries [("g", 5, 0)]) =
      some (.negativeValues "g" 5 0) := by
  refine ⟨?_, ?_, ?_, ?_, by decide, by decide, by decide⟩
  · intro g a _
    simp [CheckModelRequestRateLimitGroup, checkModelRequestRateLimitEntries]
  · intro es g a h
    induction es with
    | nil => simp at h
    | cons hd tl ih =>
      obtain ⟨gr, x, y⟩ := hd
      rcases List.mem_cons.mp h with h1 | h1
      · injection h1 with h1a h1bc
        injection h1bc with h1b h1c
        subst h1a; subst h1b
        simp [CheckModelRequestRateLimitGroup, checkModelRequestRateLimitEntries, ← h1c]
      · simp only [CheckModelRequestRateLimitGroup, checkModelRequestRateLimitEntries]
        split_ifs <;> first | simp | exact ih h1
  · intro g a h0 hmax
    have hc1 : ¬ (a < 0 ∨ (0 : Int) < 0) := by omega
    have hc2 : ¬ (a > maxInt32 ∨ (0 : Int) > maxInt32) := by
      simp only [maxInt32] at hmax ⊢
      omega
    simp [CheckTokenRateLimitGroup, checkTokenRateLimitEntries, hc1, hc2]
    omega
  · intro g a h0 hmax
    have hc1 : ¬ (a < 0 ∨ (0 : Int) < 0) := by omega
    have hc2 : ¬ (a > maxInt32 ∨ (0 : Int) > maxInt32) := by
      simp only [maxInt32] at hmax ⊢
      omega
    simp [CheckTokenDailyRateLimitGroup, checkTokenDailyRateLimitEntries, hc1, hc2]
    omega

theorem C10_confirmed_witness :
    ((0 : Int) ≤ 5 ∧ (5 : Int) ≤ maxInt32 ∧
      ("g", (5 : Int), (0 : Int)) ∈ [("g", (5 : Int), (0 : Int))]) ∧
    CheckModelRequestRateLimitGroup (.entries [("g", 5, 0)]) = some (.negativeValues "g" 5 0) ∧
    CheckTokenRateLimitGroup (.entries [("g", 5, 0)]) = none ∧
    CheckTokenDailyRateLimitGroup (.entries [("g", 5, 0)]) = none ∧
    (CheckModelRequestRateLimitGroup (.entries [("g", 5, 0)])).isSome = true :=
  ⟨⟨by decide, by decide, by decide⟩,
   C10_confirmed.1 "g" 5 (by decide),
   C10_confirmed.2.2.1 "g" 5 (by decide) (by decide),
   C10_confirmed.2.2.2.1 "g" 5 (by decide) (by decide),
   C10_confirmed.2.1 [("g", 5, 0)] "g" 5 (by decide)⟩

/-- Claim C8: a check or record invocation configured with maxCount = 0
admits (or returns without recording) and leaves all counter state
untouched, performing no backend operation: the Redis sliding-window
check and record return immediately with an empty trace, the in-process
fused Request leaves the store unchanged, and the in-process user-tier
handler with both limits at 0 passes the handler status through with the
backend unchanged. -/
theorem C8_confirmed (s : Settings) (lists mem : String → List Int) (now : Int)
    (key : String) (duration : Int) (ctx : ReqCtx) (b : Backend) :
    checkRedisRateLimit s lists now key 0 duration = (some true, []) ∧
    recordRedisRequest s lists now key 0 = (lists, []) ∧
    memRequest mem now key 0 duration = (true, mem) ∧
    (memoryRateLimitHandler s ctx b duration 0 0).1 = ctx.handlerStatus ∧
    (memoryRateLimitHandler s ctx b duration 0 0).2.1 = b := by
  refine ⟨by simp [checkRedisRateLimit], by simp [recordRedisRequest],
    by simp [memRequest], ?_, ?_⟩ <;>
  · by_cases h : ctx.handlerStatus < 400 <;>
      simp [memoryRateLimitHandler, memRequest, h]

/-- Claim C4, counterexample: a full window ([0] with maxCount 1) whose
oldest entry has aged out (now = 100, duration = 60) is admitted, but the
check performs no Expire at all on this path — it does not refresh the
key's expiry as the claim states. -/
theorem C4_counterexample :
    checkRedisRateLimit sampleSettings (upd (fun _ => []) "k" [0]) 100 "k" 1 60 =
      (some true, [Ev.llen "k", Ev.lindex "k" (-1)]) ∧
    expireEvents (checkRedisRateLimit sampleSettings (upd (fun _ => []) "k" [0]) 100 "k" 1 60).2 = [] := by
  decide

/-- Claim C4, amended: for a sliding-window check with maxCount > 0 whose
log already holds at least maxCount entries, if now minus the oldest
(last) timestamp is at least durationSeconds the check admits without
evicting the stale entry and without touching the key (no Expire);
otherwise it rejects and refreshes the key's expiry to the configured
user-scope window (ModelRequestRateLimitDurationMinutes). -/
theorem C4_amended (s : Settings) (lists : String → List Int) (now : Int)
    (key : String) (maxCount duration oldest : Int)
    (hm : 0 < maxCount) (hlen : maxCount ≤ ((lists key).length : Int))
    (hlast : (lists key).getLast? = some oldest) :
    (duration ≤ now - oldest →
      checkRedisRateLimit s lists now key maxCount duration =
        (some true, [Ev.llen key, Ev.lindex key (-1)])) ∧
    (now - oldest < duration →
      checkRedisRateLimit s lists now key maxCount duration =
        (some false, [Ev.llen key, Ev.lindex key (-1),
          Ev.expire key (s.modelRequestRateLimitDurationMinutes * 60)])) := by
  have h0 : ¬ maxCount = 0 := by omega
  have h1 : ¬ (((lists key).length : Int) < maxCount) := by omega
  constructor <;> intro h <;>
    · unfold checkRedisRateLimit
      rw [if_neg h0, if_neg h1, hlast]
      simp only []
      first
        | rw [if_neg (by omega : ¬ now - oldest < duration)]
        | rw [if_pos (by omega : now - oldest < duration)]

theorem C4_amended_witness :
    ((0 : Int) < 1 ∧
      (1 : Int) ≤ (((upd (fun _ => ([] : List Int)) "k" [0]) "k").length : Int) ∧
      ((upd (fun _ => ([] : List Int)) "k" [0]) "k").getLast? = some 0 ∧
      (60 : Int) ≤ 100 - 0) ∧
    checkRedisRateLimit sampleSettings (upd (fun _ => []) "k" [0]) 100 "k" 1 60 =
      (some true, [Ev.llen "k", Ev.lindex "k" (-1)]) :=
  ⟨⟨by decide, by decide, by decide, by decide⟩,
   (C4_amended sampleSettings (upd (fun _ => []) "k" [0]) 100 "k" 1 60 0
     (by decide) (by decide) (by decide)).1 (by decide)⟩

/-- Claim C7, counterexample: an enabled gatekeeper given a non-transient
message with status 429 and error type insufficient_quota returns false,
although the claim's characterization ("true exactly when the status is
401 or 403 or the error type is insufficient_quota") demands true: the
429 branch takes precedence over the insufficient_quota branch. -/
theorem C7_counterexample :
    ShouldDisableChannel true
      (some ⟨"you exceeded your current quota", 429, "insufficient_quota"⟩) = false ∧
    transientSubstrings.any
      (fun sub => containsB (strToLower "you exceeded your current quota") sub) = false ∧
    c7ClaimDisable ⟨"you exceeded your current quota", 429, "insufficient_quota"⟩ := by
  exact ⟨by decide, by decide, Or.inr (Or.inr rfl)⟩

/-- Claim C7, amended: ShouldDisable returns false whenever automatic
disabling is off, the error is absent, or the lowercased message contains
a transient substring, regardless of status; otherwise it returns true
exactly when the status is 401, or the status is not 429 and (the status
is 403 or the error type is insufficient_quota) — in particular always
false for status 429, which takes precedence over insufficient_quota. -/
theorem C7_amended :
    (∀ err, ShouldDisableChannel false err = false) ∧
    (∀ auto, ShouldDisableChannel auto none = false) ∧
    (∀ e : NewAPIError,
      transientSubstrings.any (fun sub => containsB (strToLower e.message) sub) = true →
      ShouldDisableChannel true (some e) = false) ∧
    (∀ e : NewAPIError,
      transientSubstrings.any (fun sub => containsB (strToLower e.message) sub) = false →
      (ShouldDisableChannel true (some e) = true ↔
        (e.statusCode = 401 ∨
          (e.statusCode ≠ 429 ∧ (e.statusCode = 403 ∨ e.errType = "insufficient_quota"))))) := by
  refine ⟨fun err => rfl, fun auto => by cases auto <;> rfl, ?_, ?_⟩
  · intro e h
    simp [ShouldDisableChannel, h]
  · intro e h
    have hsd : ShouldDisableChannel true (some e) =
        (if e.statusCode = 401 then true else if e.statusCode = 429 then false
         else if e.statusCode = 403 then true
         else if e.errType = "insufficient_quota" then true else false) := by
      simp [ShouldDisableChannel, h]
    rw [hsd]
    split_ifs with h1 h2 h3 h4 <;> first | simp_all | tauto

theorem C7_amended_witness :
    transientSubstrings.any
      (fun sub => containsB (strToLower "invalid api key provided") sub) = false ∧
    ShouldDisableChannel true (some ⟨"invalid api key provided", 401, ""⟩) = true :=
  ⟨by decide,
   (C7_amended.2.2.2 ⟨"invalid api key provided", 401, ""⟩ (by decide)).mpr (Or.inl rfl)⟩

theorem checkRedis_cons (s : Settings) (lists : String → List Int) (now : Int)
    (key : String) (m d : Int) (hm : ¬ m = 0) :
    ∃ t, (checkRedisRateLimit s lists now key m d).2 = Ev.llen key :: t := by
  unfold checkRedisRateLimit
  rw [if_neg hm]
  split
  · exact ⟨[], rfl⟩
  · split
    · exact ⟨[Ev.lindex key (-1)], rfl⟩
    · split
      · exact ⟨[Ev.lindex key (-1),
          Ev.expire key (s.modelRequestRateLimitDurationMinutes * 60)], rfl⟩
      · exact ⟨[Ev.lindex key (-1)], rfl⟩

/-- Claim C2, counterexample: with both limits at 5 on a fresh backend,
the in-process minute-tier check touches the total counter first (its
first backend operation is the fused Request on the TRL total key), while
the shared-backend check starts with the success counter — the
success-before-total order does not hold in the fallback, and the two
implementations disagree. -/
theorem C2_counterexample :
    (checkTokenRateLimitMemory sampleSettings emptyBackend 0 "7" 5 5 60).2.2 =
      [Ev.memReq "TRL7" 5 60, Ev.memReq "TRLS7_check" 5 60] ∧
    (checkTokenRateLimitMemory sampleSettings emptyBackend 0 "7" 5 5 60).2.2.head? ≠
      some (Ev.memReq "TRLS7_check" 5 60) ∧
    (checkTokenRateLimitRedis sampleSettings emptyBackend 0 "7" 5 5 60).2.2.head? =
      some (Ev.llen "rateLimit:TRLS:7") := by
  decide

/-- Claim C2, amended: when both limits are positive, every
shared-backend tier check consults the success counter first (its first
backend operation is the LLen on the tier's success key), while every
in-process tier check consults the total counter first (its first
backend operation is the fused Request on the tier's total key) — the
two implementations check in opposite orders. -/
theorem C2_amended (s : Settings) (b : Backend) (now : Int) (key : String)
    (ctx : ReqCtx) (total success duration : Int)
    (htot : 0 < total) (hsuc : 0 < success) :
    (checkTokenRateLimitRedis s b now key total success duration).2.2.head? =
      some (Ev.llen ("rateLimit:" ++ TokenRateLimitSuccessCountMark ++ ":" ++ key)) ∧
    (checkTokenDailyRateLimitRedis s b now key total success duration).2.2.head? =
      some (Ev.llen ("rateLimit:" ++ TokenDailyRateLimitSuccessCountMark ++ ":" ++ key)) ∧
    (redisRateLimitHandler s ctx b duration total success).2.2.head? =
      some (Ev.llen ("rateLimit:" ++ ModelRequestRateLimitSuccessCountMark ++ ":" ++ toString ctx.userId)) ∧
    (checkTokenRateLimitMemory s b now key total success duration).2.2.head? =
      some (Ev.memReq (TokenRateLimitCountMark ++ key) total duration) ∧
    (checkTokenDailyRateLimitMemory s b now key total success duration).2.2.head? =
      some (Ev.memReq (TokenDailyRateLimitCountMark ++ key) total duration) ∧
    (memoryRateLimitHandler s ctx b duration total success).2.2.head? =
      some (Ev.memReq (ModelRequestRateLimitCountMark ++ toString ctx.userId) total duration) := by
  refine ⟨?_, ?_, ?_, ?_, ?_, ?_⟩
  · obtain ⟨t, ht⟩ := checkRedis_cons s b.lists now
      ("rateLimit:" ++ TokenRateLimitSuccessCountMark ++ ":" ++ key) success duration (by omega)
    rcases hcr : checkRedisRateLimit s b.lists now
      ("rateLimit:" ++ TokenRateLimitSuccessCountMark ++ ":" ++ key) success duration with ⟨res, evs⟩
    rw [hcr] at ht
    simp only at ht
    subst ht
    rcases res with _ | bb
    · simp [checkTokenRateLimitRedis, hsuc, hcr]
    · cases bb
      · simp [checkTokenRateLimitRedis, hsuc, hcr]
      · simp [checkTokenRateLimitRedis, hsuc, hcr, htot]
        split <;> simp
  · obtain ⟨t, ht⟩ := checkRedis_cons s b.lists now
      ("rateLimit:" ++ TokenDailyRateLimitSuccessCountMark ++ ":" ++ key) success duration (by omega)
    rcases hcr : checkRedisRateLimit s b.lists now
      ("rateLimit:" ++ TokenDailyRateLimitSuccessCountMark ++ ":" ++ key) success duration with ⟨res, evs⟩
    rw [hcr] at ht
    simp only at ht
    subst ht
    rcases res with _ | bb
    · simp [checkTokenDailyRateLimitRedis, hsuc, hcr]
    · cases bb
      · simp [checkTokenDailyRateLimitRedis, hsuc, hcr]
      · simp [checkTokenDailyRateLimitRedis, hsuc, hcr, htot]
        split <;> simp
  · obtain ⟨t, ht⟩ := checkRedis_cons s b.lists ctx.now
      ("rateLimit:" ++ ModelRequestRateLimitSuccessCountMark ++ ":" ++ toString ctx.userId)
      success duration (by omega)
    rcases hcr : checkRedisRateLimit s b.lists ctx.now
      ("rateLimit:" ++ ModelRequestRateLimitSuccessCountMark ++ ":" ++ toString ctx.userId)
      success duration with ⟨res, evs⟩
    rw [hcr] at ht
    simp only at ht
    subst ht
    rcases res with _ | bb
    · simp [redisRateLimitHandler, hcr]
    · cases bb
      · simp [redisRateLimitHandler, hcr]
      · simp [redisRateLimitHandler, hcr, htot]
        split_ifs <;> simp
  · rcases hr : memRequest b.mem now (TokenRateLimitCountMark ++ key) total duration with ⟨ok, mem2⟩
    cases ok
    · simp [checkTokenRateLimitMemory, htot, hr]
    · simp [checkTokenRateLimitMemory, htot, hr, hsuc]
      split <;> simp
  · rcases hr : memRequest b.mem now (TokenDailyRateLimitCountMark ++ key) total duration with ⟨ok, mem2⟩
    cases ok
    · simp [checkTokenDailyRateLimitMemory, htot, hr]
    · simp [checkTokenDailyRateLimitMemory, htot, hr, hsuc]
      split <;> simp
  · rcases hr : memRequest b.mem ctx.now
      (ModelRequestRateLimitCountMark ++ toString ctx.userId) total duration with ⟨ok, mem2⟩
    cases ok
    · simp [memoryRateLimitHandler, htot, hr]
    · simp [memoryRateLimitHandler, htot, hr]
      split_ifs <;> simp

theorem C2_amended_witness :
    ((0 : Int) < 5 ∧ (0 : Int) < 5) ∧
    (checkTokenRateLimitRedis sampleSettings emptyBackend 0 "7" 5 5 60).2.2.head? =
      some (Ev.llen "rateLimit:TRLS:7") ∧
    (checkTokenRateLimitMemory sampleSettings emptyBackend 0 "7" 5 5 60).2.2.head? =
      some (Ev.memReq "TRL7" 5 60) :=
  ⟨⟨by decide, by decide⟩,
   (C2_amended sampleSettings emptyBackend 0 "7" sampleCtx 5 5 60 (by decide) (by decide)).1,
   (C2_amended sampleSettings emptyBackend 0 "7" sampleCtx 5 5 60 (by decide) (by decide)).2.2.2.1⟩

theorem abortEvents_append (xs ys : List Ev) :
    abortEvents (xs ++ ys) = abortEvents xs ++ abortEvents ys := by
  simp [abortEvents, List.filterMap_append]

theorem tbEvents_append (xs ys : List Ev) :
    tbEvents (xs ++ ys) = tbEvents xs ++ tbEvents ys := by
  simp [tbEvents, List.filterMap_append]

theorem successRecordKeys_append (xs ys : List Ev) :
    successRecordKeys (xs ++ ys) = successRecordKeys xs ++ successRecordKeys ys := by
  simp [successRecordKeys, List.filterMap_append]

theorem abortEvents_nil : abortEvents [] = [] := rfl

theorem tbEvents_nil : tbEvents [] = [] := rfl

theorem successRecordKeys_nil : successRecordKeys [] = [] := rfl

theorem abortEvents_cons_llen (k : String) (l : List Ev) :
    abortEvents (Ev.llen k :: l) = abortEvents l := rfl

theorem abortEvents_cons_lindex (k : String) (i : Int) (l : List Ev) :
    abortEvents (Ev.lindex k i :: l) = abortEvents l := rfl

theorem abortEvents_cons_lpush (k : String) (t : Int) (l : List Ev) :
    abortEvents (Ev.lpush k t :: l) = abortEvents l := rfl

theorem abortEvents_cons_ltrim (k : String) (a b : Int) (l : List Ev) :
    abortEvents (Ev.ltrim k a b :: l) = abortEvents l := rfl

theorem abortEvents_cons_expire (k : String) (sec : Int) (l : List Ev) :
    abortEvents (Ev.expire k sec :: l) = abortEvents l := rfl

theorem abortEvents_cons_tb (k : String) (c r q : Int) (l : List Ev) :
    abortEvents (Ev.tbAllow k c r q :: l) = abortEvents l := rfl

theorem abortEvents_cons_memReq (k : String) (m d : Int) (l : List Ev) :
    abortEvents (Ev.memReq k m d :: l) = abortEvents l := rfl

theorem abortEvents_cons_next (l : List Ev) :
    abortEvents (Ev.next :: l) = abortEvents l := rfl

theorem abortEvents_cons_abort (st : Nat) (m : String) (l : List Ev) :
    abortEvents (Ev.abortEv st m :: l) = (st, m) :: abortEvents l := rfl

theorem tbEvents_cons_llen (k : String) (l : List Ev) :
    tbEvents (Ev.llen k :: l) = tbEvents l := rfl

theorem tbEvents_cons_lindex (k : String) (i : Int) (l : List Ev) :
    tbEvents (Ev.lindex k i :: l) = tbEvents l := rfl

theorem tbEvents_cons_lpush (k : String) (t : Int) (l : List Ev) :
    tbEvents (Ev.lpush k t :: l) = tbEvents l := rfl

theorem tbEvents_cons_ltrim (k : String) (a b : Int) (l : List Ev) :
    tbEvents (Ev.ltrim k a b :: l) = tbEvents l := rfl

theorem tbEvents_cons_expire (k : String) (sec : Int) (l : List Ev) :
    tbEvents (Ev.expire k sec :: l) = tbEvents l := rfl

theorem tbEvents_cons_tb (k : String) (c r q : Int) (l : List Ev) :
    tbEvents (Ev.tbAllow k c r q :: l) = (k, c, r, q) :: tbEvents l := rfl

theorem tbEvents_cons_memReq (k : String) (m d : Int) (l : List Ev) :
    tbEvents (Ev.memReq k m d :: l) = tbEvents l := rfl

theorem tbEvents_cons_next (l : List Ev) :
    tbEvents (Ev.next :: l) = tbEvents l := rfl

theorem tbEvents_cons_abort (st : Nat) (m : String) (l : List Ev) :
    tbEvents (Ev.abortEv st m :: l) = tbEvents l := rfl

theorem successRecordKeys_cons_llen (k : String) (l : List Ev) :
    successRecordKeys (Ev.llen k :: l) = successRecordKeys l := rfl

theorem successRecordKeys_cons_lindex (k : String) (i : Int) (l : List Ev) :
    successRecordKeys (Ev.lindex k i :: l) = successRecordKeys l := rfl

theorem successRecordKeys_cons_lpush (k : String) (t : Int) (l : List Ev) :
    successRecordKeys (Ev.lpush k t :: l) = k :: successRecordKeys l := rfl

theorem successRecordKeys_cons_ltrim (k : String) (a b : Int) (l : List Ev) :
    successRecordKeys (Ev.ltrim k a b :: l) = successRecordKeys l := rfl

theorem successRecordKeys_cons_expire (k : String) (sec : Int) (l : List Ev) :
    successRecordKeys (Ev.expire k sec :: l) = successRecordKeys l := rfl

theorem successRecordKeys_cons_tb (k : String) (c r q : Int) (l : List Ev) :
    successRecordKeys (Ev.tbAllow k c r q :: l) = successRecordKeys l := rfl

theorem successRecordKeys_cons_memReq (k : String) (m d : Int) (l : List Ev) :
    successRecordKeys (Ev.memReq k m d :: l) = k :: successRecordKeys l := rfl

theorem successRecordKeys_cons_next (l : List Ev) :
    successRecordKeys (Ev.next :: l) = successRecordKeys l := rfl

theorem successRecordKeys_cons_abort (st : Nat) (m : String) (l : List Ev) :
    successRecordKeys (Ev.abortEv st m :: l) = successRecordKeys l := rfl

theorem checkRedis_evs (s : Settings) (lists : String → List Int) (now : Int)
    (key : String) (m d : Int) :
    abortEvents (checkRedisRateLimit s lists now key m d).2 = [] ∧
    Ev.next ∉ (checkRedisRateLimit s lists now key m d).2 ∧
    tbEvents (checkRedisRateLimit s lists now key m d).2 = [] ∧
    successRecordKeys (checkRedisRateLimit s lists now key m d).2 = [] := by
  unfold checkRedisRateLimit
  split
  · simp [abortEvents, tbEvents, successRecordKeys]
  · split
    · simp [abortEvents, tbEvents, successRecordKeys]
    · split
      · simp [abortEvents, tbEvents, successRecordKeys]
      · split <;> simp [abortEvents, tbEvents, successRecordKeys]

theorem tokenRedis_shape (s : Settings) (b : Backend) (now : Int) (key : String)
    (total success duration : Int) :
    ∃ pre,
      abortEvents pre = [] ∧
      Ev.next ∉ pre ∧
      (∀ p ∈ tbEvents pre,
        p = ("rateLimit:" ++ TokenRateLimitCountMark ++ ":" ++ key, total * duration, total, duration)) ∧
      successRecordKeys pre = [] ∧
      (((checkTokenRateLimitRedis s b now key total success duration).1 = true ∧
          (checkTokenRateLimitRedis s b now key total success duration).2.2 = pre ∧
          (0 < total →
            Ev.tbAllow ("rateLimit:" ++ TokenRateLimitCountMark ++ ":" ++ key)
              (total * duration) total duration ∈ pre)) ∨
       ((checkTokenRateLimitRedis s b now key total success duration).1 = false ∧
          ((checkTokenRateLimitRedis s b now key total success duration).2.2 =
              pre ++ [Ev.abortEv 500 rateLimitCheckFailedMsg] ∨
           (checkTokenRateLimitRedis s b now key total success duration).2.2 =
              pre ++ [Ev.abortEv 429 (tokenMinuteSuccessMsg s success)] ∨
           (checkTokenRateLimitRedis s b now key total success duration).2.2 =
              pre ++ [Ev.abortEv 429 (tokenMinuteTotalMsg s total)]))) := by
  obtain ⟨hab, hnx, htb, hsk⟩ := checkRedis_evs s b.lists now
    ("rateLimit:" ++ TokenRateLimitSuccessCountMark ++ ":" ++ key) success duration
  rcases hcr : checkRedisRateLimit s b.lists now
    ("rateLimit:" ++ TokenRateLimitSuccessCountMark ++ ":" ++ key) success duration with ⟨res, evs⟩
  rw [hcr] at hab hnx htb hsk
  simp only at hab hnx htb hsk
  by_cases hs : 0 < success
  · rcases res with _ | bb
    · exact ⟨evs, hab, hnx, by simp [htb], hsk, Or.inr ⟨by simp [checkTokenRateLimitRedis, hs, hcr],
        Or.inl (by simp [checkTokenRateLimitRedis, hs, hcr])⟩⟩
    · cases bb
      · exact ⟨evs, hab, hnx, by simp [htb], hsk, Or.inr ⟨by simp [checkTokenRateLimitRedis, hs, hcr],
          Or.inr (Or.inl (by simp [checkTokenRateLimitRedis, hs, hcr]))⟩⟩
      · by_cases ht0 : 0 < total
        · cases htballow : (tbAllowStep ((b.buckets ("rateLimit:" ++ TokenRateLimitCountMark ++ ":" ++ key)).getD
              (tbInitial (total * duration) now)) now (total * duration) total duration).1
          · refine ⟨evs ++ [Ev.tbAllow ("rateLimit:" ++ TokenRateLimitCountMark ++ ":" ++ key)
                (total * duration) total duration], ?_, ?_, ?_, ?_,
              Or.inr ⟨?_, Or.inr (Or.inr ?_)⟩⟩
            · simp [abortEvents_append, hab, abortEvents_cons_tb, abortEvents_nil]
            · simp [hnx]
            · simp [tbEvents_append, htb, tbEvents_cons_tb, tbEvents_nil]
            · simp [successRecordKeys_append, hsk, successRecordKeys_cons_tb, successRecordKeys_nil]
            · simp [checkTokenRateLimitRedis, hs, hcr, ht0, htballow]
            · simp [checkTokenRateLimitRedis, hs, hcr, ht0, htballow]
          · refine ⟨evs ++ [Ev.tbAllow ("rateLimit:" ++ TokenRateLimitCountMark ++ ":" ++ key)
                (total * duration) total duration], ?_, ?_, ?_, ?_, Or.inl ⟨?_, ?_, ?_⟩⟩
            · simp [abortEvents_append, hab, abortEvents_cons_tb, abortEvents_nil]
            · simp [hnx]
            · simp [tbEvents_append, htb, tbEvents_cons_tb, tbEvents_nil]
            · simp [successRecordKeys_append, hsk, successRecordKeys_cons_tb, successRecordKeys_nil]
            · simp [checkTokenRateLimitRedis, hs, hcr, ht0, htballow]
            · simp [checkTokenRateLimitRedis, hs, hcr, ht0, htballow]
            · simp
        · refine ⟨evs, hab, hnx, by simp [htb], hsk, Or.inl ⟨?_, ?_, ?_⟩⟩
          · simp [checkTokenRateLimitRedis, hs, hcr, ht0]
          · simp [checkTokenRateLimitRedis, hs, hcr, ht0]
          · intro hcon; exact absurd hcon ht0
  · by_cases ht0 : 0 < total
    · cases htballow : (tbAllowStep ((b.buckets ("rateLimit:" ++ TokenRateLimitCountMark ++ ":" ++ key)).getD
          (tbInitial (total * duration) now)) now (total * duration) total duration).1
      · refine ⟨[Ev.tbAllow ("rateLimit:" ++ TokenRateLimitCountMark ++ ":" ++ key)
            (total * duration) total duration], ?_, ?_, ?_, ?_, Or.inr ⟨?_, Or.inr (Or.inr ?_)⟩⟩
        · simp [abortEvents_cons_tb, abortEvents_nil]
        · simp
        · simp [tbEvents_cons_tb, tbEvents_nil]
        · simp [successRecordKeys_cons_tb, successRecordKeys_nil]
        · simp [checkTokenRateLimitRedis, hs, ht0, htballow]
        · simp [checkTokenRateLimitRedis, hs, ht0, htballow]
      · refine ⟨[Ev.tbAllow ("rateLimit:" ++ TokenRateLimitCountMark ++ ":" ++ key)
            (total * duration) total duration], ?_, ?_, ?_, ?_, Or.inl ⟨?_, ?_, ?_⟩⟩
        · simp [abortEvents_cons_tb, abortEvents_nil]
        · simp
        · simp [tbEvents_cons_tb, tbEvents_nil]
        · simp [successRecordKeys_cons_tb, successRecordKeys_nil]
        · simp [checkTokenRateLimitRedis, hs, ht0, htballow]
        · simp [checkTokenRateLimitRedis, hs, ht0, htballow]
        · simp
    · refine ⟨[], ?_, ?_, ?_, ?_, Or.inl ⟨?_, ?_, ?_⟩⟩
      · simp [abortEvents_nil]
      · simp
      · simp [tbEvents_nil]
      · simp [successRecordKeys_nil]
      · simp [checkTokenRateLimitRedis, hs, ht0]
      · simp [checkTokenRateLimitRedis, hs, ht0]
      · intro hcon; exact absurd hcon ht0

theorem tokenMemory_shape (s : Settings) (b : Backend) (now : Int) (key : String)
    (total success duration : Int) :
    ∃ pre,
      abortEvents pre = [] ∧
      Ev.next ∉ pre ∧
      tbEvents pre = [] ∧
      (((checkTokenRateLimitMemory s b now key total success duration).1 = true ∧
          (checkTokenRateLimitMemory s b now key total success duration).2.2 = pre) ∨
       ((checkTokenRateLimitMemory s b now key total success duration).1 = false ∧
          ((checkTokenRateLimitMemory s b now key total success duration).2.2 =
              pre ++ [Ev.abortEv 429 (tokenMinuteTotalMsg s total)] ∨
           (checkTokenRateLimitMemory s b now key total success duration).2.2 =
              pre ++ [Ev.abortEv 429 (tokenMinuteSuccessMsg s success)]))) := by
  by_cases ht0 : 0 < total
  · rcases hr : memRequest b.mem now (TokenRateLimitCountMark ++ key) total duration with ⟨ok, mem2⟩
    cases ok
    · refine ⟨[Ev.memReq (TokenRateLimitCountMark ++ key) total duration], ?_, ?_, ?_,
        Or.inr ⟨?_, Or.inl ?_⟩⟩
      · simp [abortEvents_cons_memReq, abortEvents_nil]
      · simp
      · simp [tbEvents_cons_memReq, tbEvents_nil]
      · simp [checkTokenRateLimitMemory, ht0, hr]
      · simp [checkTokenRateLimitMemory, ht0, hr]
    · by_cases hs : 0 < success
      · rcases hr2 : memRequest mem2 now (TokenRateLimitSuccessCountMark ++ key ++ "_check")
            success duration with ⟨ok2, mem3⟩
        cases ok2
        · refine ⟨[Ev.memReq (TokenRateLimitCountMark ++ key) total duration,
            Ev.memReq (TokenRateLimitSuccessCountMark ++ key ++ "_check") success duration],
            ?_, ?_, ?_, Or.inr ⟨?_, Or.inr ?_⟩⟩
          · simp [abortEvents_cons_memReq, abortEvents_nil]
          · simp
          · simp [tbEvents_cons_memReq, tbEvents_nil]
          · simp [checkTokenRateLimitMemory, ht0, hr, hs, hr2]
          · simp [checkTokenRateLimitMemory, ht0, hr, hs, hr2]
        · refine ⟨[Ev.memReq (TokenRateLimitCountMark ++ key) total duration,
            Ev.memReq (TokenRateLimitSuccessCountMark ++ key ++ "_check") success duration],
            ?_, ?_, ?_, Or.inl ⟨?_, ?_⟩⟩
          · simp [abortEvents_cons_memReq, abortEvents_nil]
          · simp
          · simp [tbEvents_cons_memReq, tbEvents_nil]
          · simp [checkTokenRateLimitMemory, ht0, hr, hs, hr2]
          · simp [checkTokenRateLimitMemory, ht0, hr, hs, hr2]
      · refine ⟨[Ev.memReq (TokenRateLimitCountMark ++ key) total duration], ?_, ?_, ?_,
          Or.inl ⟨?_, ?_⟩⟩
        · simp [abortEvents_cons_memReq, abortEvents_nil]
        · simp
        · simp [tbEvents_cons_memReq, tbEvents_nil]
        · simp [checkTokenRateLimitMemory, ht0, hr, hs]
        · simp [checkTokenRateLimitMemory, ht0, hr, hs]
  · by_cases hs : 0 < success
    · rcases hr2 : memRequest b.mem now (TokenRateLimitSuccessCountMark ++ key ++ "_check")
          success duration with ⟨ok2, mem3⟩
      cases ok2
      · refine ⟨[Ev.memReq (TokenRateLimitSuccessCountMark ++ key ++ "_check") success duration],
          ?_, ?_, ?_, Or.inr ⟨?_, Or.inr ?_⟩⟩
        · simp [abortEvents_cons_memReq, abortEvents_nil]
        · simp
        · simp [tbEvents_cons_memReq, tbEvents_nil]
        · simp [checkTokenRateLimitMemory, ht0, hs, hr2]
        · simp [checkTokenRateLimitMemory, ht0, hs, hr2]
      · refine ⟨[Ev.memReq (TokenRateLimitSuccessCountMark ++ key ++ "_check") success duration],
          ?_, ?_, ?_, Or.inl ⟨?_, ?_⟩⟩
        · simp [abortEvents_cons_memReq, abortEvents_nil]
        · simp
        · simp [tbEvents_cons_memReq, tbEvents_nil]
        · simp [checkTokenRateLimitMemory, ht0, hs, hr2]
        · simp [checkTokenRateLimitMemory, ht0, hs, hr2]
    · refine ⟨[], ?_, ?_, ?_, Or.inl ⟨?_, ?_⟩⟩
      · simp [abortEvents_nil]
      · simp
      · simp [tbEvents_nil]
      · simp [checkTokenRateLimitMemory, ht0, hs]
      · simp [checkTokenRateLimitMemory, ht0, hs]

theorem redisHandler_shape (s : Settings) (ctx : ReqCtx) (b : Backend)
    (duration total success : Int) :
    ∃ pre,
      abortEvents pre = [] ∧
      Ev.next ∉ pre ∧
      (∀ p ∈ tbEvents pre,
        p = ("rateLimit:" ++ toString ctx.userId, total * duration, total, duration)) ∧
      (((redisRateLimitHandler s ctx b duration total success).1 = 500 ∧
          (redisRateLimitHandler s ctx b duration total success).2.2 =
            pre ++ [Ev.abortEv 500 rateLimitCheckFailedMsg]) ∨
       ((redisRateLimitHandler s ctx b duration total success).1 = 429 ∧
          ((redisRateLimitHandler s ctx b duration total success).2.2 =
              pre ++ [Ev.abortEv 429 (userSuccessMsg s success)] ∨
           (redisRateLimitHandler s ctx b duration total success).2.2 =
              pre ++ [Ev.abortEv 429 (userTotalMsg s total)])) ∨
       ((redisRateLimitHandler s ctx b duration total success).1 = ctx.handlerStatus ∧
          (redisRateLimitHandler s ctx b duration total success).2.2 =
            pre ++ [Ev.next] ++
              (if ctx.handlerStatus < 400 then
                (recordRedisRequest s b.lists ctx.now
                  ("rateLimit:" ++ ModelRequestRateLimitSuccessCountMark ++ ":" ++ toString ctx.userId)
                  success).2
               else []))) := by
  obtain ⟨hab, hnx, htb, hsk⟩ := checkRedis_evs s b.lists ctx.now
    ("rateLimit:" ++ ModelRequestRateLimitSuccessCountMark ++ ":" ++ toString ctx.userId)
    success duration
  rcases hcr : checkRedisRateLimit s b.lists ctx.now
    ("rateLimit:" ++ ModelRequestRateLimitSuccessCountMark ++ ":" ++ toString ctx.userId)
    success duration with ⟨res, evs⟩
  rw [hcr] at hab hnx htb hsk
  simp only at hab hnx htb hsk
  rcases res with _ | bb
  · exact ⟨evs, hab, hnx, by simp [htb], Or.inl ⟨by simp [redisRateLimitHandler, hcr],
      by simp [redisRateLimitHandler, hcr]⟩⟩
  · cases bb
    · exact ⟨evs, hab, hnx, by simp [htb], Or.inr (Or.inl ⟨by simp [redisRateLimitHandler, hcr],
        Or.inl (by simp [redisRateLimitHandler, hcr])⟩)⟩
    · by_cases ht0 : 0 < total
      · cases htballow : (tbAllowStep ((b.buckets ("rateLimit:" ++ toString ctx.userId)).getD
            (tbInitial (total * duration) ctx.now)) ctx.now (total * duration) total duration).1
        · refine ⟨evs ++ [Ev.tbAllow ("rateLimit:" ++ toString ctx.userId)
              (total * duration) total duration], ?_, ?_, ?_,
            Or.inr (Or.inl ⟨?_, Or.inr ?_⟩)⟩
          · simp [abortEvents_append, hab, abortEvents_cons_tb, abortEvents_nil]
          · simp [hnx]
          · simp [tbEvents_append, htb, tbEvents_cons_tb, tbEvents_nil]
          · simp [redisRateLimitHandler, hcr, ht0, htballow]
          · simp [redisRateLimitHandler, hcr, ht0, htballow]
        · refine ⟨evs ++ [Ev.tbAllow ("rateLimit:" ++ toString ctx.userId)
              (total * duration) total duration], ?_, ?_, ?_, Or.inr (Or.inr ⟨?_, ?_⟩)⟩
          · simp [abortEvents_append, hab, abortEvents_cons_tb, abortEvents_nil]
          · simp [hnx]
          · simp [tbEvents_append, htb, tbEvents_cons_tb, tbEvents_nil]
          · by_cases hst : ctx.handlerStatus < 400 <;>
              simp [redisRateLimitHandler, hcr, ht0, htballow, hst]
          · by_cases hst : ctx.handlerStatus < 400 <;>
              simp [redisRateLimitHandler, hcr, ht0, htballow, hst]
      · refine ⟨evs, hab, hnx, by simp [htb], Or.inr (Or.inr ⟨?_, ?_⟩)⟩
        · by_cases hst : ctx.handlerStatus < 400 <;>
            simp [redisRateLimitHandler, hcr, ht0, hst]
        · by_cases hst : ctx.handlerStatus < 400 <;>
            simp [redisRateLimitHandler, hcr, ht0, hst]

theorem memoryHandler_shape (s : Settings) (ctx : ReqCtx) (b : Backend)
    (duration total success : Int) :
    ∃ pre,
      abortEvents pre = [] ∧
      Ev.next ∉ pre ∧
      tbEvents pre = [] ∧
      (((memoryRateLimitHandler s ctx b duration total success).1 = 429 ∧
          (memoryRateLimitHandler s ctx b duration total success).2.2 =
            pre ++ [Ev.abortEv 429 ""]) ∨
       ((memoryRateLimitHandler s ctx b duration total success).1 = ctx.handlerStatus ∧
          (memoryRateLimitHandler s ctx b duration total success).2.2 =
            pre ++ [Ev.next] ++
              (if ctx.handlerStatus < 400 then
                [Ev.memReq (ModelRequestRateLimitSuccessCountMark ++ toString ctx.userId)
                  success duration]
               else []))) := by
  by_cases ht0 : 0 < total
  · rcases hr : memRequest b.mem ctx.now
        (ModelRequestRateLimitCountMark ++ toString ctx.userId) total duration with ⟨ok, mem2⟩
    cases ok
    · refine ⟨[Ev.memReq (ModelRequestRateLimitCountMark ++ toString ctx.userId) total duration],
        ?_, ?_, ?_, Or.inl ⟨?_, ?_⟩⟩
      · simp [abortEvents_cons_memReq, abortEvents_nil]
      · simp
      · simp [tbEvents_cons_memReq, tbEvents_nil]
      · simp [memoryRateLimitHandler, ht0, hr]
      · simp [memoryRateLimitHandler, ht0, hr]
    · rcases hr2 : memRequest mem2 ctx.now
          (ModelRequestRateLimitSuccessCountMark ++ toString ctx.userId ++ "_check")
          success duration with ⟨ok2, mem3⟩
      cases ok2
      · refine ⟨[Ev.memReq (ModelRequestRateLimitCountMark ++ toString ctx.userId) total duration,
          Ev.memReq (ModelRequestRateLimitSuccessCountMark ++ toString ctx.userId ++ "_check")
            success duration], ?_, ?_, ?_, Or.inl ⟨?_, ?_⟩⟩
        · simp [abortEvents_cons_memReq, abortEvents_nil]
        · simp
        · simp [tbEvents_cons_memReq, tbEvents_nil]
        · simp [memoryRateLimitHandler, ht0, hr, hr2]
        · simp [memoryRateLimitHandler, ht0, hr, hr2]
      · refine ⟨[Ev.memReq (ModelRequestRateLimitCountMark ++ toString ctx.userId) total duration,
          Ev.memReq (ModelRequestRateLimitSuccessCountMark ++ toString ctx.userId ++ "_check")
            success duration], ?_, ?_, ?_, Or.inr ⟨?_, ?_⟩⟩
        · simp [abortEvents_cons_memReq, abortEvents_nil]
        · simp
        · simp [tbEvents_cons_memReq, tbEvents_nil]
        · by_cases hst : ctx.handlerStatus < 400 <;>
            simp [memoryRateLimitHandler, ht0, hr, hr2, hst]
        · by_cases hst : ctx.handlerStatus < 400 <;>
            simp [memoryRateLimitHandler, ht0, hr, hr2, hst]
  · rcases hr2 : memRequest b.mem ctx.now
        (ModelRequestRateLimitSuccessCountMark ++ toString ctx.userId ++ "_check")
        success duration with ⟨ok2, mem3⟩
    cases ok2
    · refine ⟨[Ev.memReq (ModelRequestRateLimitSuccessCountMark ++ toString ctx.userId ++ "_check")
          success duration], ?_, ?_, ?_, Or.inl ⟨?_, ?_⟩⟩
      · simp [abortEvents_cons_memReq, abortEvents_nil]
      · simp
      · simp [tbEvents_cons_memReq, tbEvents_nil]
      · simp [memoryRateLimitHandler, ht0, hr2]
      · simp [memoryRateLimitHandler, ht0, hr2]
    · refine ⟨[Ev.memReq (ModelRequestRateLimitSuccessCountMark ++ toString ctx.userId ++ "_check")
          success duration], ?_, ?_, ?_, Or.inr ⟨?_, ?_⟩⟩
      · simp [abortEvents_cons_memReq, abortEvents_nil]
      · simp
      · simp [tbEvents_cons_memReq, tbEvents_nil]
      · by_cases hst : ctx.handlerStatus < 400 <;>
          simp [memoryRateLimitHandler, ht0, hr2, hst]
      · by_cases hst : ctx.handlerStatus < 400 <;>
          simp [memoryRateLimitHandler, ht0, hr2, hst]

theorem dailyRedis_shape (s : Settings) (b : Backend) (now : Int) (key : String)
    (total success duration : Int) :
    ∃ pre,
      abortEvents pre = [] ∧
      Ev.next ∉ pre ∧
      (∀ p ∈ tbEvents pre,
        p = ("rateLimit:" ++ TokenDailyRateLimitCountMark ++ ":" ++ key, total * duration, total, duration)) ∧
      successRecordKeys pre = [] ∧
      (((checkTokenDailyRateLimitRedis s b now key total success duration).1 = true ∧
          (checkTokenDailyRateLimitRedis s b now key total success duration).2.2 = pre ∧
          (0 < total →
            Ev.tbAllow ("rateLimit:" ++ TokenDailyRateLimitCountMark ++ ":" ++ key)
              (total * duration) total duration ∈ pre)) ∨
       ((checkTokenDailyRateLimitRedis s b now key total success duration).1 = false ∧
          ((checkTokenDailyRateLimitRedis s b now key total success duration).2.2 =
              pre ++ [Ev.abortEv 500 rateLimitCheckFailedMsg] ∨
           (checkTokenDailyRateLimitRedis s b now key total success duration).2.2 =
              pre ++ [Ev.abortEv 429 tokenDailySuccessMsg] ∨
           (checkTokenDailyRateLimitRedis s b now key total success duration).2.2 =
              pre ++ [Ev.abortEv 429 tokenDailyTotalMsg]))) := by
  obtain ⟨hab, hnx, htb, hsk⟩ := checkRedis_evs s b.lists now
    ("rateLimit:" ++ TokenDailyRateLimitSuccessCountMark ++ ":" ++ key) success duration
  rcases hcr : checkRedisRateLimit s b.lists now
    ("rateLimit:" ++ TokenDailyRateLimitSuccessCountMark ++ ":" ++ key) success duration with ⟨res, evs⟩
  rw [hcr] at hab hnx htb hsk
  simp only at hab hnx htb hsk
  by_cases hs : 0 < success
  · rcases res with _ | bb
    · exact ⟨evs, hab, hnx, by simp [htb], hsk, Or.inr ⟨by simp [checkTokenDailyRateLimitRedis, hs, hcr],
        Or.inl (by simp [checkTokenDailyRateLimitRedis, hs, hcr])⟩⟩
    · cases bb
      · exact ⟨evs, hab, hnx, by simp [htb], hsk, Or.inr ⟨by simp [checkTokenDailyRateLimitRedis, hs, hcr],
          Or.inr (Or.inl (by simp [checkTokenDailyRateLimitRedis, hs, hcr]))⟩⟩
      · by_cases ht0 : 0 < total
        · cases htballow : (tbAllowStep ((b.buckets ("rateLimit:" ++ TokenDailyRateLimitCountMark ++ ":" ++ key)).getD
              (tbInitial (total * duration) now)) now (total * duration) total duration).1
          · refine ⟨evs ++ [Ev.tbAllow ("rateLimit:" ++ TokenDailyRateLimitCountMark ++ ":" ++ key)
                (total * duration) total duration], ?_, ?_, ?_, ?_,
              Or.inr ⟨?_, Or.inr (Or.inr ?_)⟩⟩
            · simp [abortEvents_append, hab, abortEvents_cons_tb, abortEvents_nil]
            · simp [hnx]
            · simp [tbEvents_append, htb, tbEvents_cons_tb, tbEvents_nil]
            · simp [successRecordKeys_append, hsk, successRecordKeys_cons_tb, successRecordKeys_nil]
            · simp [checkTokenDailyRateLimitRedis, hs, hcr, ht0, htballow]
            · simp [checkTokenDailyRateLimitRedis, hs, hcr, ht0, htballow]
          · refine ⟨evs ++ [Ev.tbAllow ("rateLimit:" ++ TokenDailyRateLimitCountMark ++ ":" ++ key)
                (total * duration) total duration], ?_, ?_, ?_, ?_, Or.inl ⟨?_, ?_, ?_⟩⟩
            · simp [abortEvents_append, hab, abortEvents_cons_tb, abortEvents_nil]
            · simp [hnx]
            · simp [tbEvents_append, htb, tbEvents_cons_tb, tbEvents_nil]
            · simp [successRecordKeys_append, hsk, successRecordKeys_cons_tb, successRecordKeys_nil]
            · simp [checkTokenDailyRateLimitRedis, hs, hcr, ht0, htballow]
            · simp [checkTokenDailyRateLimitRedis, hs, hcr, ht0, htballow]
            · simp
        · refine ⟨evs, hab, hnx, by simp [htb], hsk, Or.inl ⟨?_, ?_, ?_⟩⟩
          · simp [checkTokenDailyRateLimitRedis, hs, hcr, ht0]
          · simp [checkTokenDailyRateLimitRedis, hs, hcr, ht0]
          · intro hcon; exact absurd hcon ht0
  · by_cases ht0 : 0 < total
    · cases htballow : (tbAllowStep ((b.buckets ("rateLimit:" ++ TokenDailyRateLimitCountMark ++ ":" ++ key)).getD
          (tbInitial (total * duration) now)) now (total * duration) total duration).1
      · refine ⟨[Ev.tbAllow ("rateLimit:" ++ TokenDailyRateLimitCountMark ++ ":" ++ key)
            (total * duration) total duration], ?_, ?_, ?_, ?_, Or.inr ⟨?_, Or.inr (Or.inr ?_)⟩⟩
        · simp [abortEvents_cons_tb, abortEvents_nil]
        · simp
        · simp [tbEvents_cons_tb, tbEvents_nil]
        · simp [successRecordKeys_cons_tb, successRecordKeys_nil]
        · simp [checkTokenDailyRateLimitRedis, hs, ht0, htballow]
        · simp [checkTokenDailyRateLimitRedis, hs, ht0, htballow]
      · refine ⟨[Ev.tbAllow ("rateLimit:" ++ TokenDailyRateLimitCountMark ++ ":" ++ key)
            (total * duration) total duration], ?_, ?_, ?_, ?_, Or.inl ⟨?_, ?_, ?_⟩⟩
        · simp [abortEvents_cons_tb, abortEvents_nil]
        · simp
        · simp [tbEvents_cons_tb, tbEvents_nil]
        · simp [successRecordKeys_cons_tb, successRecordKeys_nil]
        · simp [checkTokenDailyRateLimitRedis, hs, ht0, htballow]
        · simp [checkTokenDailyRateLimitRedis, hs, ht0, htballow]
        · simp
    · refine ⟨[], ?_, ?_, ?_, ?_, Or.inl ⟨?_, ?_, ?_⟩⟩
      · simp [abortEvents_nil]
      · simp
      · simp [tbEvents_nil]
      · simp [successRecordKeys_nil]
      · simp [checkTokenDailyRateLimitRedis, hs, ht0]
      · simp [checkTokenDailyRateLimitRedis, hs, ht0]
      · intro hcon; exact absurd hcon ht0

theorem dailyMemory_shape (s : Settings) (b : Backend) (now : Int) (key : String)
    (total success duration : Int) :
    ∃ pre,
      abortEvents pre = [] ∧
      Ev.next ∉ pre ∧
      tbEvents pre = [] ∧
      (((checkTokenDailyRateLimitMemory s b now key total success duration).1 = true ∧
          (checkTokenDailyRateLimitMemory s b now key total success duration).2.2 = pre) ∨
       ((checkTokenDailyRateLimitMemory s b now key total success duration).1 = false ∧
          ((checkTokenDailyRateLimitMemory s b now key total success duration).2.2 =
              pre ++ [Ev.abortEv 429 tokenDailyTotalMsg] ∨
           (checkTokenDailyRateLimitMemory s b now key total success duration).2.2 =
              pre ++ [Ev.abortEv 429 tokenDailySuccessMsg]))) := by
  by_cases ht0 : 0 < total
  · rcases hr : memRequest b.mem now (TokenDailyRateLimitCountMark ++ key) total duration with ⟨ok, mem2⟩
    cases ok
    · refine ⟨[Ev.memReq (TokenDailyRateLimitCountMark ++ key) total duration], ?_, ?_, ?_,
        Or.inr ⟨?_, Or.inl ?_⟩⟩
      · simp [abortEvents_cons_memReq, abortEvents_nil]
      · simp
      · simp [tbEvents_cons_memReq, tbEvents_nil]
      · simp [checkTokenDailyRateLimitMemory, ht0, hr]
      · simp [checkTokenDailyRateLimitMemory, ht0, hr]
    · by_cases hs : 0 < success
      · rcases hr2 : memRequest mem2 now (TokenDailyRateLimitSuccessCountMark ++ key ++ "_check")
            success duration with ⟨ok2, mem3⟩
        cases ok2
        · refine ⟨[Ev.memReq (TokenDailyRateLimitCountMark ++ key) total duration,
            Ev.memReq (TokenDailyRateLimitSuccessCountMark ++ key ++ "_check") success duration],
            ?_, ?_, ?_, Or.inr ⟨?_, Or.inr ?_⟩⟩
          · simp [abortEvents_cons_memReq, abortEvents_nil]
          · simp
          · simp [tbEvents_cons_memReq, tbEvents_nil]
          · simp [checkTokenDailyRateLimitMemory, ht0, hr, hs, hr2]
          · simp [checkTokenDailyRateLimitMemory, ht0, hr, hs, hr2]
        · refine ⟨[Ev.memReq (TokenDailyRateLimitCountMark ++ key) total duration,
            Ev.memReq (TokenDailyRateLimitSuccessCountMark ++ key ++ "_check") success duration],
            ?_, ?_, ?_, Or.inl ⟨?_, ?_⟩⟩
          · simp [abortEvents_cons_memReq, abortEvents_nil]
          · simp
          · simp [tbEvents_cons_memReq, tbEvents_nil]
          · simp [checkTokenDailyRateLimitMemory, ht0, hr, hs, hr2]
          · simp [checkTokenDailyRateLimitMemory, ht0, hr, hs, hr2]
      · refine ⟨[Ev.memReq (TokenDailyRateLimitCountMark ++ key) total duration], ?_, ?_, ?_,
          Or.inl ⟨?_, ?_⟩⟩
        · simp [abortEvents_cons_memReq, abortEvents_nil]
        · simp
        · simp [tbEvents_cons_memReq, tbEvents_nil]
        · simp [checkTokenDailyRateLimitMemory, ht0, hr, hs]
        · simp [checkTokenDailyRateLimitMemory, ht0, hr, hs]
  · by_cases hs : 0 < success
    · rcases hr2 : memRequest b.mem now (TokenDailyRateLimitSuccessCountMark ++ key ++ "_check")
          success duration with ⟨ok2, mem3⟩
      cases ok2
      · refine ⟨[Ev.memReq (TokenDailyRateLimitSuccessCountMark ++ key ++ "_check") success duration],
          ?_, ?_, ?_, Or.inr ⟨?_, Or.inr ?_⟩⟩
        · simp [abortEvents_cons_memReq, abortEvents_nil]
        · simp
        · simp [tbEvents_cons_memReq, tbEvents_nil]
        · simp [checkTokenDailyRateLimitMemory, ht0, hs, hr2]
        · simp [checkTokenDailyRateLimitMemory, ht0, hs, hr2]
      · refine ⟨[Ev.memReq (TokenDailyRateLimitSuccessCountMark ++ key ++ "_check") success duration],
          ?_, ?_, ?_, Or.inl ⟨?_, ?_⟩⟩
        · simp [abortEvents_cons_memReq, abortEvents_nil]
        · simp
        · simp [tbEvents_cons_memReq, tbEvents_nil]
        · simp [checkTokenDailyRateLimitMemory, ht0, hs, hr2]
        · simp [checkTokenDailyRateLimitMemory, ht0, hs, hr2]
    · refine ⟨[], ?_, ?_, ?_, Or.inl ⟨?_, ?_⟩⟩
      · simp [abortEvents_nil]
      · simp
      · simp [tbEvents_nil]
      · simp [checkTokenDailyRateLimitMemory, ht0, hs]
      · simp [checkTokenDailyRateLimitMemory, ht0, hs]

theorem checkToken_shape (s : Settings) (ctx : ReqCtx) (b : Backend) :
    ∃ pre,
      abortEvents pre = [] ∧
      Ev.next ∉ pre ∧
      (((checkTokenRateLimit s ctx b).1 = true ∧ (checkTokenRateLimit s ctx b).2.2 = pre) ∨
       ((checkTokenRateLimit s ctx b).1 = false ∧
         ∃ st msg, 400 ≤ st ∧
           (checkTokenRateLimit s ctx b).2.2 = pre ++ [Ev.abortEv st msg])) := by
  by_cases he : s.tokenRateLimitEnabled = true
  case neg =>
    exact ⟨[], rfl, by simp, Or.inl ⟨by simp [checkTokenRateLimit, he],
      by simp [checkTokenRateLimit, he]⟩⟩
  by_cases hid : ctx.tokenId = 0
  case pos =>
    exact ⟨[], rfl, by simp, Or.inl ⟨by simp [checkTokenRateLimit, he, hid],
      by simp [checkTokenRateLimit, he, hid]⟩⟩
  by_cases h00 :
    ((GetTokenRateLimit s.tokenRateLimitGroup ctx.tokenGroup).getD
      (s.tokenRateLimitCount, s.tokenRateLimitSuccessCount)).1 = 0 ∧
    ((GetTokenRateLimit s.tokenRateLimitGroup ctx.tokenGroup).getD
      (s.tokenRateLimitCount, s.tokenRateLimitSuccessCount)).2 = 0
  case pos =>
    exact ⟨[], rfl, by simp, Or.inl ⟨by simp [checkTokenRateLimit, he, hid, h00],
      by simp [checkTokenRateLimit, he, hid, h00]⟩⟩
  by_cases hre : s.redisEnabled = true
  · have hw : checkTokenRateLimit s ctx b =
        checkTokenRateLimitRedis s b ctx.now (toString ctx.tokenId)
          ((GetTokenRateLimit s.tokenRateLimitGroup ctx.tokenGroup).getD
            (s.tokenRateLimitCount, s.tokenRateLimitSuccessCount)).1
          ((GetTokenRateLimit s.tokenRateLimitGroup ctx.tokenGroup).getD
            (s.tokenRateLimitCount, s.tokenRateLimitSuccessCount)).2
          (s.tokenRateLimitDurationMinutes * 60) := by
      simp [checkTokenRateLimit, he, hid, h00, hre]
    obtain ⟨pre, h1, h2, _, _, hd⟩ := tokenRedis_shape s b ctx.now (toString ctx.tokenId)
      ((GetTokenRateLimit s.tokenRateLimitGroup ctx.tokenGroup).getD
        (s.tokenRateLimitCount, s.tokenRateLimitSuccessCount)).1
      ((GetTokenRateLimit s.tokenRateLimitGroup ctx.tokenGroup).getD
        (s.tokenRateLimitCount, s.tokenRateLimitSuccessCount)).2
      (s.tokenRateLimitDurationMinutes * 60)
    rw [← hw] at hd
    refine ⟨pre, h1, h2, ?_⟩
    rcases hd with ⟨ht, htr, _⟩ | ⟨hf, h | h | h⟩
    · exact Or.inl ⟨ht, htr⟩
    · exact Or.inr ⟨hf, 500, _, by omega, h⟩
    · exact Or.inr ⟨hf, 429, _, by omega, h⟩
    · exact Or.inr ⟨hf, 429, _, by omega, h⟩
  · have hw : checkTokenRateLimit s ctx b =
        checkTokenRateLimitMemory s b ctx.now (toString ctx.tokenId)
          ((GetTokenRateLimit s.tokenRateLimitGroup ctx.tokenGroup).getD
            (s.tokenRateLimitCount, s.tokenRateLimitSuccessCount)).1
          ((GetTokenRateLimit s.tokenRateLimitGroup ctx.tokenGroup).getD
            (s.tokenRateLimitCount, s.tokenRateLimitSuccessCount)).2
          (s.tokenRateLimitDurationMinutes * 60) := by
      simp [checkTokenRateLimit, he, hid, h00, hre]
    obtain ⟨pre, h1, h2, _, hd⟩ := tokenMemory_shape s b ctx.now (toString ctx.tokenId)
      ((GetTokenRateLimit s.tokenRateLimitGroup ctx.tokenGroup).getD
        (s.tokenRateLimitCount, s.tokenRateLimitSuccessCount)).1
      ((GetTokenRateLimit s.tokenRateLimitGroup ctx.tokenGroup).getD
        (s.tokenRateLimitCount, s.tokenRateLimitSuccessCount)).2
      (s.tokenRateLimitDurationMinutes * 60)
    rw [← hw] at hd
    refine ⟨pre, h1, h2, ?_⟩
    rcases hd with ⟨ht, htr⟩ | ⟨hf, h | h⟩
    · exact Or.inl ⟨ht, htr⟩
    · exact Or.inr ⟨hf, 429, _, by omega, h⟩
    · exact Or.inr ⟨hf, 429, _, by omega, h⟩

theorem checkDaily_shape (s : Settings) (ctx : ReqCtx) (b : Backend) :
    ∃ pre,
      abortEvents pre = [] ∧
      Ev.next ∉ pre ∧
      (((checkTokenDailyRateLimit s ctx b).1 = true ∧ (checkTokenDailyRateLimit s ctx b).2.2 = pre) ∨
       ((checkTokenDailyRateLimit s ctx b).1 = false ∧
         ∃ st msg, 400 ≤ st ∧
           (checkTokenDailyRateLimit s ctx b).2.2 = pre ++ [Ev.abortEv st msg])) := by
  by_cases he : s.tokenDailyRateLimitEnabled = true
  case neg =>
    exact ⟨[], rfl, by simp, Or.inl ⟨by simp [checkTokenDailyRateLimit, he],
      by simp [checkTokenDailyRateLimit, he]⟩⟩
  by_cases hid : ctx.tokenId = 0
  case pos =>
    exact ⟨[], rfl, by simp, Or.inl ⟨by simp [checkTokenDailyRateLimit, he, hid],
      by simp [checkTokenDailyRateLimit, he, hid]⟩⟩
  by_cases h00 :
    ((GetTokenDailyRateLimit s.tokenDailyRateLimitGroup ctx.tokenGroup).getD
      (s.tokenDailyRateLimitCount, s.tokenDailyRateLimitSuccessCount)).1 = 0 ∧
    ((GetTokenDailyRateLimit s.tokenDailyRateLimitGroup ctx.tokenGroup).getD
      (s.tokenDailyRateLimitCount, s.tokenDailyRateLimitSuccessCount)).2 = 0
  case pos =>
    exact ⟨[], rfl, by simp, Or.inl ⟨by simp [checkTokenDailyRateLimit, he, hid, h00],
      by simp [checkTokenDailyRateLimit, he, hid, h00]⟩⟩
  by_cases hre : s.redisEnabled = true
  · have hw : checkTokenDailyRateLimit s ctx b =
        checkTokenDailyRateLimitRedis s b ctx.now (toString ctx.tokenId)
          ((GetTokenDailyRateLimit s.tokenDailyRateLimitGroup ctx.tokenGroup).getD
            (s.tokenDailyRateLimitCount, s.tokenDailyRateLimitSuccessCount)).1
          ((GetTokenDailyRateLimit s.tokenDailyRateLimitGroup ctx.tokenGroup).getD
            (s.tokenDailyRateLimitCount, s.tokenDailyRateLimitSuccessCount)).2
          86400 := by
      simp [checkTokenDailyRateLimit, he, hid, h00, hre]
    obtain ⟨pre, h1, h2, _, _, hd⟩ := dailyRedis_shape s b ctx.now (toString ctx.tokenId)
      ((GetTokenDailyRateLimit s.tokenDailyRateLimitGroup ctx.tokenGroup).getD
        (s.tokenDailyRateLimitCount, s.tokenDailyRateLimitSuccessCount)).1
      ((GetTokenDailyRateLimit s.tokenDailyRateLimitGroup ctx.tokenGroup).getD
        (s.tokenDailyRateLimitCount, s.tokenDailyRateLimitSuccessCount)).2
      86400
    rw [← hw] at hd
    refine ⟨pre, h1, h2, ?_⟩
    rcases hd with ⟨ht, htr, _⟩ | ⟨hf, h | h | h⟩
    · exact Or.inl ⟨ht, htr⟩
    · exact Or.inr ⟨hf, 500, _, by omega, h⟩
    · exact Or.inr ⟨hf, 429, _, by omega, h⟩
    · exact Or.inr ⟨hf, 429, _, by omega, h⟩
  · have hw : checkTokenDailyRateLimit s ctx b =
        checkTokenDailyRateLimitMemory s b ctx.now (toString ctx.tokenId)
          ((GetTokenDailyRateLimit s.tokenDailyRateLimitGroup ctx.tokenGroup).getD
            (s.tokenDailyRateLimitCount, s.tokenDailyRateLimitSuccessCount)).1
          ((GetTokenDailyRateLimit s.tokenDailyRateLimitGroup ctx.tokenGroup).getD
            (s.tokenDailyRateLimitCount, s.tokenDailyRateLimitSuccessCount)).2
          86400 := by
      simp [checkTokenDailyRateLimit, he, hid, h00, hre]
    obtain ⟨pre, h1, h2, _, hd⟩ := dailyMemory_shape s b ctx.now (toString ctx.tokenId)
      ((GetTokenDailyRateLimit s.tokenDailyRateLimitGroup ctx.tokenGroup).getD
        (s.tokenDailyRateLimitCount, s.tokenDailyRateLimitSuccessCount)).1
      ((GetTokenDailyRateLimit s.tokenDailyRateLimitGroup ctx.tokenGroup).getD
        (s.tokenDailyRateLimitCount, s.tokenDailyRateLimitSuccessCount)).2
      86400
    rw [← hw] at hd
    refine ⟨pre, h1, h2, ?_⟩
    rcases hd with ⟨ht, htr⟩ | ⟨hf, h | h⟩
    · exact Or.inl ⟨ht, htr⟩
    · exact Or.inr ⟨hf, 429, _, by omega, h⟩
    · exact Or.inr ⟨hf, 429, _, by omega, h⟩

theorem lastAbortStatus_append_abort (xs : List Ev) (st : Nat) (m : String) (d : Nat) :
    lastAbortStatus (xs ++ [Ev.abortEv st m]) d = st := by
  induction xs generalizing d with
  | nil => rfl
  | cons a t ih => cases a <;> simp [lastAbortStatus, ih]

theorem evsAfterNext_append (xs ys : List Ev) (h : Ev.next ∉ xs) :
    evsAfterNext (xs ++ ys) = evsAfterNext ys := by
  induction xs with
  | nil => rfl
  | cons a t ih => cases a <;> simp_all [evsAfterNext]

theorem evsAfterNext_of_not_mem (xs : List Ev) (h : Ev.next ∉ xs) :
    evsAfterNext xs = [] := by
  have h2 := evsAfterNext_append xs [] h
  rw [List.append_nil] at h2
  exact h2

theorem evsAfterNext_cons_next (l : List Ev) : evsAfterNext (Ev.next :: l) = l := rfl

theorem recordRedis_evs (s : Settings) (lists : String → List Int) (now : Int)
    (key : String) (m : Int) :
    successRecordKeys (recordRedisRequest s lists now key m).2 =
      (if m = 0 then [] else [key]) ∧
    tbEvents (recordRedisRequest s lists now key m).2 = [] ∧
    Ev.next ∉ (recordRedisRequest s lists now key m).2 := by
  unfold recordRedisRequest
  split <;>
    simp_all [successRecordKeys_cons_lpush, successRecordKeys_cons_ltrim,
      successRecordKeys_cons_expire, successRecordKeys_nil, tbEvents_cons_lpush,
      tbEvents_cons_ltrim, tbEvents_cons_expire, tbEvents_nil]

theorem recordToken_evs (s : Settings) (ctx : ReqCtx) (b : Backend) :
    tbEvents (recordTokenRateLimitSuccess s ctx b).2 = [] ∧
    Ev.next ∉ (recordTokenRateLimitSuccess s ctx b).2 := by
  simp only [recordTokenRateLimitSuccess]
  split_ifs <;>
    first
      | exact ⟨(recordRedis_evs _ _ _ _ _).2.1, (recordRedis_evs _ _ _ _ _).2.2⟩
      | simp [tbEvents_cons_memReq, tbEvents_nil]

theorem recordDaily_evs (s : Settings) (ctx : ReqCtx) (b : Backend) :
    tbEvents (recordTokenDailySuccess s ctx b).2 = [] ∧
    Ev.next ∉ (recordTokenDailySuccess s ctx b).2 := by
  simp only [recordTokenDailySuccess]
  split_ifs <;>
    first
      | exact ⟨(recordRedis_evs _ _ _ _ _).2.1, (recordRedis_evs _ _ _ _ _).2.2⟩
      | simp [tbEvents_cons_memReq, tbEvents_nil]

theorem recordToken_keys (s : Settings) (ctx : ReqCtx) (b : Backend)
    (he : s.tokenRateLimitEnabled = true) (hid : ¬ ctx.tokenId = 0)
    (hre : s.redisEnabled = true)
    (hm : ¬ ((GetTokenRateLimit s.tokenRateLimitGroup ctx.tokenGroup).map Prod.snd).getD
        s.tokenRateLimitSuccessCount = 0) :
    successRecordKeys (recordTokenRateLimitSuccess s ctx b).2 =
      ["rateLimit:" ++ TokenRateLimitSuccessCountMark ++ ":" ++ toString ctx.tokenId] := by
  rw [show (recordTokenRateLimitSuccess s ctx b).2 =
      (recordRedisRequest s b.lists ctx.now
        ("rateLimit:" ++ TokenRateLimitSuccessCountMark ++ ":" ++ toString ctx.tokenId)
        (((GetTokenRateLimit s.tokenRateLimitGroup ctx.tokenGroup).map Prod.snd).getD
          s.tokenRateLimitSuccessCount)).2
    from by simp [recordTokenRateLimitSuccess, he, hid, hm, hre]]
  rw [(recordRedis_evs _ _ _ _ _).1]
  simp [hm]

theorem recordDaily_keys (s : Settings) (ctx : ReqCtx) (b : Backend)
    (he : s.tokenDailyRateLimitEnabled = true) (hid : ¬ ctx.tokenId = 0)
    (hre : s.redisEnabled = true)
    (hm : ¬ ((GetTokenDailyRateLimit s.tokenDailyRateLimitGroup ctx.tokenGroup).map Prod.snd).getD
        s.tokenDailyRateLimitSuccessCount = 0) :
    successRecordKeys (recordTokenDailySuccess s ctx b).2 =
      ["rateLimit:" ++ TokenDailyRateLimitSuccessCountMark ++ ":" ++ toString ctx.tokenId] := by
  rw [show (recordTokenDailySuccess s ctx b).2 =
      (recordRedisRequest s b.lists ctx.now
        ("rateLimit:" ++ TokenDailyRateLimitSuccessCountMark ++ ":" ++ toString ctx.tokenId)
        (((GetTokenDailyRateLimit s.tokenDailyRateLimitGroup ctx.tokenGroup).map Prod.snd).getD
          s.tokenDailyRateLimitSuccessCount)).2
    from by simp [recordTokenDailySuccess, he, hid, hm, hre]]
  rw [(recordRedis_evs _ _ _ _ _).1]
  simp [hm]

theorem tokenMinuteSuccessMsg_mentions (s : Settings) (n : Int) :
    mentionsNum (tokenMinuteSuccessMsg s n) s.tokenRateLimitDurationMinutes = true ∧
    mentionsNum (tokenMinuteSuccessMsg s n) n = true :=
  ⟨containsB_of_parts _ _ ("您已达到密钥请求数限制：").data
      ("分钟内最多请求" ++ toString n ++ "次").data
      (by simp [tokenMinuteSuccessMsg, String.data_append, List.append_assoc]),
   containsB_of_parts _ _
      ("您已达到密钥请求数限制：" ++ toString s.tokenRateLimitDurationMinutes ++ "分钟内最多请求").data
      ("次").data
      (by simp [tokenMinuteSuccessMsg, String.data_append, List.append_assoc])⟩

theorem tokenMinuteTotalMsg_mentions (s : Settings) (n : Int) :
    mentionsNum (tokenMinuteTotalMsg s n) s.tokenRateLimitDurationMinutes = true ∧
    mentionsNum (tokenMinuteTotalMsg s n) n = true :=
  ⟨containsB_of_parts _ _ ("您已达到密钥总请求数限制：").data
      ("分钟内最多请求" ++ toString n ++ "次（包括失败请求）").data
      (by simp [tokenMinuteTotalMsg, String.data_append, List.append_assoc]),
   containsB_of_parts _ _
      ("您已达到密钥总请求数限制：" ++ toString s.tokenRateLimitDurationMinutes ++ "分钟内最多请求").data
      ("次（包括失败请求）").data
      (by simp [tokenMinuteTotalMsg, String.data_append, List.append_assoc])⟩

theorem userSuccessMsg_mentions (s : Settings) (n : Int) :
    mentionsNum (userSuccessMsg s n) s.modelRequestRateLimitDurationMinutes = true ∧
    mentionsNum (userSuccessMsg s n) n = true :=
  ⟨containsB_of_parts _ _ ("您已达到请求数限制：").data
      ("分钟内最多请求" ++ toString n ++ "次").data
      (by simp [userSuccessMsg, String.data_append, List.append_assoc]),
   containsB_of_parts _ _
      ("您已达到请求数限制：" ++ toString s.modelRequestRateLimitDurationMinutes ++ "分钟内最多请求").data
      ("次").data
      (by simp [userSuccessMsg, String.data_append, List.append_assoc])⟩

theorem userTotalMsg_mentions (s : Settings) (n : Int) :
    mentionsNum (userTotalMsg s n) s.modelRequestRateLimitDurationMinutes = true ∧
    mentionsNum (userTotalMsg s n) n = true :=
  ⟨containsB_of_parts _ _ ("您已达到总请求数限制：").data
      ("分钟内最多请求" ++ toString n ++ "次，包括失败次数，请检查您的请求是否正确").data
      (by simp [userTotalMsg, String.data_append, List.append_assoc]),
   containsB_of_parts _ _
      ("您已达到总请求数限制：" ++ toString s.modelRequestRateLimitDurationMinutes ++ "分钟内最多请求").data
      ("次，包括失败次数，请检查您的请求是否正确").data
      (by simp [userTotalMsg, String.data_append, List.append_assoc])⟩


theorem recordRedis_aborts (s : Settings) (lists : String → List Int) (now : Int)
    (key : String) (m : Int) :
    abortEvents (recordRedisRequest s lists now key m).2 = [] := by
  unfold recordRedisRequest
  split <;> simp [abortEvents_cons_lpush, abortEvents_cons_ltrim, abortEvents_cons_expire,
    abortEvents_nil]

/-- Claim C6, amended: minute-tier rejections (both backends) and
shared-backend user-tier rejections carry messages naming the window
length (in minutes) and the numeric limit that was exceeded; daily-tier
rejections carry fixed messages containing no digit at all, and the
in-process user-tier rejection carries no message (empty body). -/
theorem C6_amended (s : Settings) (b : Backend) (now : Int) (key : String)
    (ctx : ReqCtx) (total success duration : Int) :
    (∀ m, (429, m) ∈ abortEvents (checkTokenRateLimitRedis s b now key total success duration).2.2 →
      mentionsNum m s.tokenRateLimitDurationMinutes = true ∧
      (mentionsNum m success = true ∨ mentionsNum m total = true)) ∧
    (∀ m, (429, m) ∈ abortEvents (checkTokenRateLimitMemory s b now key total success duration).2.2 →
      mentionsNum m s.tokenRateLimitDurationMinutes = true ∧
      (mentionsNum m success = true ∨ mentionsNum m total = true)) ∧
    (∀ m, (429, m) ∈ abortEvents (redisRateLimitHandler s ctx b duration total success).2.2 →
      mentionsNum m s.modelRequestRateLimitDurationMinutes = true ∧
      (mentionsNum m success = true ∨ mentionsNum m total = true)) ∧
    (∀ m, (429, m) ∈ abortEvents (checkTokenDailyRateLimitRedis s b now key total success duration).2.2 →
      m.data.any (fun c => c.isDigit) = false) ∧
    (∀ m, (429, m) ∈ abortEvents (checkTokenDailyRateLimitMemory s b now key total success duration).2.2 →
      m.data.any (fun c => c.isDigit) = false) ∧
    (∀ m, (429, m) ∈ abortEvents (memoryRateLimitHandler s ctx b duration total success).2.2 →
      m = "") := by
  refine ⟨?_, ?_, ?_, ?_, ?_, ?_⟩
  · intro m hm
    obtain ⟨pre, hab, _, _, _, hd⟩ := tokenRedis_shape s b now key total success duration
    rcases hd with ⟨_, htr, _⟩ | ⟨_, htr | htr | htr⟩
    · rw [htr, hab] at hm
      simp at hm
    · rw [htr, abortEvents_append, hab] at hm
      simp [abortEvents_cons_abort, abortEvents_nil] at hm
    · rw [htr, abortEvents_append, hab] at hm
      simp [abortEvents_cons_abort, abortEvents_nil] at hm
      subst hm
      exact ⟨(tokenMinuteSuccessMsg_mentions s success).1,
        Or.inl (tokenMinuteSuccessMsg_mentions s success).2⟩
    · rw [htr, abortEvents_append, hab] at hm
      simp [abortEvents_cons_abort, abortEvents_nil] at hm
      subst hm
      exact ⟨(tokenMinuteTotalMsg_mentions s total).1,
        Or.inr (tokenMinuteTotalMsg_mentions s total).2⟩
  · intro m hm
    obtain ⟨pre, hab, _, _, hd⟩ := tokenMemory_shape s b now key total success duration
    rcases hd with ⟨_, htr⟩ | ⟨_, htr | htr⟩
    · rw [htr, hab] at hm
      simp at hm
    · rw [htr, abortEvents_append, hab] at hm
      simp [abortEvents_cons_abort, abortEvents_nil] at hm
      subst hm
      exact ⟨(tokenMinuteTotalMsg_mentions s total).1,
        Or.inr (tokenMinuteTotalMsg_mentions s total).2⟩
    · rw [htr, abortEvents_append, hab] at hm
      simp [abortEvents_cons_abort, abortEvents_nil] at hm
      subst hm
      exact ⟨(tokenMinuteSuccessMsg_mentions s success).1,
        Or.inl (tokenMinuteSuccessMsg_mentions s success).2⟩
  · intro m hm
    obtain ⟨pre, hab, _, _, hd⟩ := redisHandler_shape s ctx b duration total success
    rcases hd with ⟨_, htr⟩ | ⟨_, htr | htr⟩ | ⟨_, htr⟩
    · rw [htr, abortEvents_append, hab] at hm
      simp [abortEvents_cons_abort, abortEvents_nil] at hm
    · rw [htr, abortEvents_append, hab] at hm
      simp [abortEvents_cons_abort, abortEvents_nil] at hm
      subst hm
      exact ⟨(userSuccessMsg_mentions s success).1,
        Or.inl (userSuccessMsg_mentions s success).2⟩
    · rw [htr, abortEvents_append, hab] at hm
      simp [abortEvents_cons_abort, abortEvents_nil] at hm
      subst hm
      exact ⟨(userTotalMsg_mentions s total).1,
        Or.inr (userTotalMsg_mentions s total).2⟩
    · rw [htr] at hm
      by_cases hst : ctx.handlerStatus < 400 <;>
        simp only [hst, if_pos, if_neg, if_true, if_false, ite_true, ite_false] at hm <;>
        rw [List.append_assoc, abortEvents_append, hab] at hm <;>
        simp [abortEvents_cons_next, abortEvents_nil, recordRedis_aborts] at hm
  · intro m hm
    obtain ⟨pre, hab, _, _, _, hd⟩ := dailyRedis_shape s b now key total success duration
    rcases hd with ⟨_, htr, _⟩ | ⟨_, htr | htr | htr⟩
    · rw [htr, hab] at hm
      simp at hm
    · rw [htr, abortEvents_append, hab] at hm
      simp [abortEvents_cons_abort, abortEvents_nil] at hm
    · rw [htr, abortEvents_append, hab] at hm
      simp [abortEvents_cons_abort, abortEvents_nil] at hm
      subst hm
      decide
    · rw [htr, abortEvents_append, hab] at hm
      simp [abortEvents_cons_abort, abortEvents_nil] at hm
      subst hm
      decide
  · intro m hm
    obtain ⟨pre, hab, _, _, hd⟩ := dailyMemory_shape s b now key total success duration
    rcases hd with ⟨_, htr⟩ | ⟨_, htr | htr⟩
    · rw [htr, hab] at hm
      simp at hm
    · rw [htr, abortEvents_append, hab] at hm
      simp [abortEvents_cons_abort, abortEvents_nil] at hm
      subst hm
      decide
    · rw [htr, abortEvents_append, hab] at hm
      simp [abortEvents_cons_abort, abortEvents_nil] at hm
      subst hm
      decide
  · intro m hm
    obtain ⟨pre, hab, _, _, hd⟩ := memoryHandler_shape s ctx b duration total success
    rcases hd with ⟨_, htr⟩ | ⟨_, htr⟩
    · rw [htr, abortEvents_append, hab] at hm
      simp [abortEvents_cons_abort, abortEvents_nil] at hm
      exact hm
    · rw [htr] at hm
      by_cases hst : ctx.handlerStatus < 400 <;>
        simp only [hst, if_pos, if_neg, if_true, if_false, ite_true, ite_false] at hm <;>
        rw [List.append_assoc, abortEvents_append, hab] at hm <;>
        simp [abortEvents_cons_next, abortEvents_cons_memReq, abortEvents_nil] at hm

/-- Claim C1, amended: when all three success tiers are enabled (flags on
and resolved success limits nonzero), the shared backend is in use, and
the protected handler completes with a non-error status, the orchestrator
records success against the legacy per-user counter first (inside the
user-tier handler wrapper), then the key-minute counter, then the
key-daily counter, in that order. -/
theorem C1_amended (s : Settings) (ctx : ReqCtx) (b : Backend)
    (hre : s.redisEnabled = true)
    (hmod : s.modelRequestRateLimitEnabled = true)
    (htok : s.tokenRateLimitEnabled = true)
    (hday : s.tokenDailyRateLimitEnabled = true)
    (hid : ¬ ctx.tokenId = 0)
    (husr : ¬ ((GetGroupRateLimit s.modelRequestRateLimitGroup ctx.userGroup).getD
        (s.modelRequestRateLimitCount, s.modelRequestRateLimitSuccessCount)).2 = 0)
    (hmin : ¬ ((GetTokenRateLimit s.tokenRateLimitGroup ctx.tokenGroup).map Prod.snd).getD
        s.tokenRateLimitSuccessCount = 0)
    (hdsc : ¬ ((GetTokenDailyRateLimit s.tokenDailyRateLimitGroup ctx.tokenGroup).map Prod.snd).getD
        s.tokenDailyRateLimitSuccessCount = 0)
    (hst : (ModelRequestRateLimit s ctx b).1 < 400) :
    successRecordKeys (evsAfterNext (ModelRequestRateLimit s ctx b).2.2) =
      ["rateLimit:" ++ ModelRequestRateLimitSuccessCountMark ++ ":" ++ toString ctx.userId,
       "rateLimit:" ++ TokenRateLimitSuccessCountMark ++ ":" ++ toString ctx.tokenId,
       "rateLimit:" ++ TokenDailyRateLimitSuccessCountMark ++ ":" ++ toString ctx.tokenId] := by
  obtain ⟨pre1, hab1, hnx1, hd1⟩ := checkToken_shape s ctx b
  rcases hw1 : checkTokenRateLimit s ctx b with ⟨ok1, b1, e1⟩
  rw [hw1] at hd1
  simp only at hd1
  cases ok1
  · have hM : ModelRequestRateLimit s ctx b = (lastAbortStatus e1 0, b1, e1) := by
      simp [ModelRequestRateLimit, hw1]
    rw [hM] at hst
    simp only at hst
    rcases hd1 with ⟨hok, _⟩ | ⟨_, st, msg, hstge, htr⟩
    · exact absurd hok (by simp)
    · rw [htr, lastAbortStatus_append_abort] at hst
      omega
  · rcases hd1 with ⟨_, htr1⟩ | ⟨hok, _⟩
    swap
    · exact absurd hok (by simp)
    obtain ⟨pre2, hab2, hnx2, hd2⟩ := checkDaily_shape s ctx b1
    rcases hw2 : checkTokenDailyRateLimit s ctx b1 with ⟨ok2, b2, e2⟩
    rw [hw2] at hd2
    simp only at hd2
    cases ok2
    · have hM : ModelRequestRateLimit s ctx b = (lastAbortStatus e2 0, b2, e1 ++ e2) := by
        simp [ModelRequestRateLimit, hw1, hw2]
      rw [hM] at hst
      simp only at hst
      rcases hd2 with ⟨hok, _⟩ | ⟨_, st, msg, hstge, htr⟩
      · exact absurd hok (by simp)
      · rw [htr, lastAbortStatus_append_abort] at hst
        omega
    · rcases hd2 with ⟨_, htr2⟩ | ⟨hok, _⟩
      swap
      · exact absurd hok (by simp)
      obtain ⟨preH, habH, hnxH, htbH, hdH⟩ := redisHandler_shape s ctx b2
        (s.modelRequestRateLimitDurationMinutes * 60)
        ((GetGroupRateLimit s.modelRequestRateLimitGroup ctx.userGroup).getD
          (s.modelRequestRateLimitCount, s.modelRequestRateLimitSuccessCount)).1
        ((GetGroupRateLimit s.modelRequestRateLimitGroup ctx.userGroup).getD
          (s.modelRequestRateLimitCount, s.modelRequestRateLimitSuccessCount)).2
      rcases hwH : redisRateLimitHandler s ctx b2
        (s.modelRequestRateLimitDurationMinutes * 60)
        ((GetGroupRateLimit s.modelRequestRateLimitGroup ctx.userGroup).getD
          (s.modelRequestRateLimitCount, s.modelRequestRateLimitSuccessCount)).1
        ((GetGroupRateLimit s.modelRequestRateLimitGroup ctx.userGroup).getD
          (s.modelRequestRateLimitCount, s.modelRequestRateLimitSuccessCount)).2
        with ⟨stH, bH, eH⟩
      rw [hwH] at hdH
      simp only at hdH
      by_cases hstH : stH < 400
      · have hM : ModelRequestRateLimit s ctx b =
            (stH, (recordTokenDailySuccess s ctx (recordTokenRateLimitSuccess s ctx bH).1).1,
              e1 ++ e2 ++ eH ++ (recordTokenRateLimitSuccess s ctx bH).2 ++
                (recordTokenDailySuccess s ctx (recordTokenRateLimitSuccess s ctx bH).1).2) := by
          simp [ModelRequestRateLimit, hw1, hw2, hmod, hre, hwH, hstH]
        rcases hdH with ⟨h5, _⟩ | ⟨h4, _⟩ | ⟨hsh, htrH⟩
        · omega
        · omega
        · have hhs : ctx.handlerStatus < 400 := by omega
          rw [hM]
          simp only
          rw [htr1, htr2, htrH, if_pos hhs]
          rw [show pre1 ++ pre2 ++ (preH ++ [Ev.next] ++
              (recordRedisRequest s b2.lists ctx.now
                ("rateLimit:" ++ ModelRequestRateLimitSuccessCountMark ++ ":" ++ toString ctx.userId)
                ((GetGroupRateLimit s.modelRequestRateLimitGroup ctx.userGroup).getD
                  (s.modelRequestRateLimitCount, s.modelRequestRateLimitSuccessCount)).2).2) ++
              (recordTokenRateLimitSuccess s ctx bH).2 ++
              (recordTokenDailySuccess s ctx (recordTokenRateLimitSuccess s ctx bH).1).2 =
            pre1 ++ (pre2 ++ (preH ++ (Ev.next ::
              ((recordRedisRequest s b2.lists ctx.now
                ("rateLimit:" ++ ModelRequestRateLimitSuccessCountMark ++ ":" ++ toString ctx.userId)
                ((GetGroupRateLimit s.modelRequestRateLimitGroup ctx.userGroup).getD
                  (s.modelRequestRateLimitCount, s.modelRequestRateLimitSuccessCount)).2).2 ++
               ((recordTokenRateLimitSuccess s ctx bH).2 ++
                (recordTokenDailySuccess s ctx (recordTokenRateLimitSuccess s ctx bH).1).2)))))
            from by simp [List.append_assoc]]
          rw [evsAfterNext_append _ _ hnx1, evsAfterNext_append _ _ hnx2,
            evsAfterNext_append _ _ hnxH, evsAfterNext_cons_next]
          rw [successRecordKeys_append, successRecordKeys_append]
          rw [(recordRedis_evs _ _ _ _ _).1]
          rw [recordToken_keys s ctx bH htok hid hre hmin]
          rw [recordDaily_keys s ctx _ hday hid hre hdsc]
          simp [husr]
      · have hM : ModelRequestRateLimit s ctx b = (stH, bH, e1 ++ e2 ++ eH) := by
          simp [ModelRequestRateLimit, hw1, hw2, hmod, hre, hwH, hstH]
        rw [hM] at hst
        simp only at hst
        omega

/-- Claim C5: for every tier with totalMaxCount > 0 on the shared
backend, the token-bucket check runs with capacity
totalMaxCount * durationSeconds, refill rate totalMaxCount per second and
requested cost durationSeconds (every tbAllow event in the tier's trace
has these parameters, and an admitted check with a positive total limit
did consult the bucket); and in every orchestrator run, no token-bucket
operation happens after the protected handler completes — the cost is
deducted only at check time. -/
theorem C5_confirmed :
    (∀ s b now key total success duration, 0 < total →
      (∀ p ∈ tbEvents (checkTokenRateLimitRedis s b now key total success duration).2.2,
        p = ("rateLimit:" ++ TokenRateLimitCountMark ++ ":" ++ key,
          total * duration, total, duration)) ∧
      ((checkTokenRateLimitRedis s b now key total success duration).1 = true →
        Ev.tbAllow ("rateLimit:" ++ TokenRateLimitCountMark ++ ":" ++ key)
          (total * duration) total duration ∈
          (checkTokenRateLimitRedis s b now key total success duration).2.2)) ∧
    (∀ s b now key total success duration, 0 < total →
      (∀ p ∈ tbEvents (checkTokenDailyRateLimitRedis s b now key total success duration).2.2,
        p = ("rateLimit:" ++ TokenDailyRateLimitCountMark ++ ":" ++ key,
          total * duration, total, duration)) ∧
      ((checkTokenDailyRateLimitRedis s b now key total success duration).1 = true →
        Ev.tbAllow ("rateLimit:" ++ TokenDailyRateLimitCountMark ++ ":" ++ key)
          (total * duration) total duration ∈
          (checkTokenDailyRateLimitRedis s b now key total success duration).2.2)) ∧
    (∀ s ctx b duration total success,
      ∀ p ∈ tbEvents (redisRateLimitHandler s ctx b duration total success).2.2,
        p = ("rateLimit:" ++ toString ctx.userId, total * duration, total, duration)) ∧
    (∀ s ctx b, tbEvents (evsAfterNext (ModelRequestRateLimit s ctx b).2.2) = []) := by
  refine ⟨?_, ?_, ?_, ?_⟩
  · intro s b now key total success duration ht0
    obtain ⟨pre, _, _, htb, _, hd⟩ := tokenRedis_shape s b now key total success duration
    constructor
    · intro p hp
      rcases hd with ⟨_, htr, _⟩ | ⟨_, htr | htr | htr⟩ <;> rw [htr] at hp
      · exact htb p hp
      all_goals
        rw [tbEvents_append] at hp
        simp only [tbEvents_cons_abort, tbEvents_nil, List.append_nil] at hp
        exact htb p hp
    · intro hres
      rcases hd with ⟨_, htr, hpres⟩ | ⟨hok, _⟩
      · rw [htr]; exact hpres ht0
      · rw [hres] at hok; exact absurd hok (by simp)
  · intro s b now key total success duration ht0
    obtain ⟨pre, _, _, htb, _, hd⟩ := dailyRedis_shape s b now key total success duration
    constructor
    · intro p hp
      rcases hd with ⟨_, htr, _⟩ | ⟨_, htr | htr | htr⟩ <;> rw [htr] at hp
      · exact htb p hp
      all_goals
        rw [tbEvents_append] at hp
        simp only [tbEvents_cons_abort, tbEvents_nil, List.append_nil] at hp
        exact htb p hp
    · intro hres
      rcases hd with ⟨_, htr, hpres⟩ | ⟨hok, _⟩
      · rw [htr]; exact hpres ht0
      · rw [hres] at hok; exact absurd hok (by simp)
  · intro s ctx b duration total success p hp
    obtain ⟨pre, _, _, htb, hd⟩ := redisHandler_shape s ctx b duration total success
    rcases hd with ⟨_, htr⟩ | ⟨_, htr | htr⟩ | ⟨_, htr⟩
    · rw [htr, tbEvents_append] at hp
      simp only [tbEvents_cons_abort, tbEvents_nil, List.append_nil] at hp
      exact htb p hp
    · rw [htr, tbEvents_append] at hp
      simp only [tbEvents_cons_abort, tbEvents_nil, List.append_nil] at hp
      exact htb p hp
    · rw [htr, tbEvents_append] at hp
      simp only [tbEvents_cons_abort, tbEvents_nil, List.append_nil] at hp
      exact htb p hp
    · rw [htr] at hp
      by_cases hhs : ctx.handlerStatus < 400
      · rw [if_pos hhs, List.append_assoc, tbEvents_append, tbEvents_append] at hp
        simp only [tbEvents_cons_next, tbEvents_nil, (recordRedis_evs _ _ _ _ _).2.1,
          List.append_nil] at hp
        exact htb p hp
      · rw [if_neg hhs, List.append_assoc, tbEvents_append, tbEvents_append] at hp
        simp only [tbEvents_cons_next, tbEvents_nil, List.append_nil] at hp
        exact htb p hp
  · intro s ctx b
    obtain ⟨pre1, hab1, hnx1, hd1⟩ := checkToken_shape s ctx b
    rcases hw1 : checkTokenRateLimit s ctx b with ⟨ok1, b1, e1⟩
    rw [hw1] at hd1
    simp only at hd1
    cases ok1
    · have hM : ModelRequestRateLimit s ctx b = (lastAbortStatus e1 0, b1, e1) := by
        simp [ModelRequestRateLimit, hw1]
      rw [hM]
      simp only
      rcases hd1 with ⟨hok, _⟩ | ⟨_, st, msg, _, htr⟩
      · exact absurd hok (by simp)
      · rw [htr, evsAfterNext_of_not_mem _ (by simp [hnx1]), tbEvents_nil]
    · rcases hd1 with ⟨_, htr1⟩ | ⟨hok, _⟩
      swap
      · exact absurd hok (by simp)
      obtain ⟨pre2, hab2, hnx2, hd2⟩ := checkDaily_shape s ctx b1
      rcases hw2 : checkTokenDailyRateLimit s ctx b1 with ⟨ok2, b2, e2⟩
      rw [hw2] at hd2
      simp only at hd2
      cases ok2
      · have hM : ModelRequestRateLimit s ctx b = (lastAbortStatus e2 0, b2, e1 ++ e2) := by
          simp [ModelRequestRateLimit, hw1, hw2]
        rw [hM]
        simp only
        rcases hd2 with ⟨hok, _⟩ | ⟨_, st, msg, _, htr⟩
        · exact absurd hok (by simp)
        · rw [htr1, htr, evsAfterNext_of_not_mem _ (by simp [hnx1, hnx2]), tbEvents_nil]
      · rcases hd2 with ⟨_, htr2⟩ | ⟨hok, _⟩
        swap
        · exact absurd hok (by simp)
        by_cases hmod : s.modelRequestRateLimitEnabled = true
        · by_cases hre : s.redisEnabled = true
          · obtain ⟨preH, habH, hnxH, htbH, hdH⟩ := redisHandler_shape s ctx b2
              (s.modelRequestRateLimitDurationMinutes * 60)
              ((GetGroupRateLimit s.modelRequestRateLimitGroup ctx.userGroup).getD
                (s.modelRequestRateLimitCount, s.modelRequestRateLimitSuccessCount)).1
              ((GetGroupRateLimit s.modelRequestRateLimitGroup ctx.userGroup).getD
                (s.modelRequestRateLimitCount, s.modelRequestRateLimitSuccessCount)).2
            rcases hwH : redisRateLimitHandler s ctx b2
              (s.modelRequestRateLimitDurationMinutes * 60)
              ((GetGroupRateLimit s.modelRequestRateLimitGroup ctx.userGroup).getD
                (s.modelRequestRateLimitCount, s.modelRequestRateLimitSuccessCount)).1
              ((GetGroupRateLimit s.modelRequestRateLimitGroup ctx.userGroup).getD
                (s.modelRequestRateLimitCount, s.modelRequestRateLimitSuccessCount)).2
              with ⟨stH, bH, eH⟩
            rw [hwH] at hdH
            simp only at hdH
            by_cases hstH : stH < 400
            · have hM : ModelRequestRateLimit s ctx b =
                  (stH, (recordTokenDailySuccess s ctx (recordTokenRateLimitSuccess s ctx bH).1).1,
                    e1 ++ e2 ++ eH ++ (recordTokenRateLimitSuccess s ctx bH).2 ++
                      (recordTokenDailySuccess s ctx (recordTokenRateLimitSuccess s ctx bH).1).2) := by
                simp [ModelRequestRateLimit, hw1, hw2, hmod, hre, hwH, hstH]
              rw [hM]
              simp only
              rcases hdH with ⟨h5, _⟩ | ⟨h4, _⟩ | ⟨hsh, htrH⟩
              · omega
              · omega
              · have hhs : ctx.handlerStatus < 400 := by omega
                rw [htr1, htr2, htrH, if_pos hhs]
                rw [show pre1 ++ pre2 ++ (preH ++ [Ev.next] ++
                    (recordRedisRequest s b2.lists ctx.now
                      ("rateLimit:" ++ ModelRequestRateLimitSuccessCountMark ++ ":" ++ toString ctx.userId)
                      ((GetGroupRateLimit s.modelRequestRateLimitGroup ctx.userGroup).getD
                        (s.modelRequestRateLimitCount, s.modelRequestRateLimitSuccessCount)).2).2) ++
                    (recordTokenRateLimitSuccess s ctx bH).2 ++
                    (recordTokenDailySuccess s ctx (recordTokenRateLimitSuccess s ctx bH).1).2 =
                  pre1 ++ (pre2 ++ (preH ++ (Ev.next ::
                    ((recordRedisRequest s b2.lists ctx.now
                      ("rateLimit:" ++ ModelRequestRateLimitSuccessCountMark ++ ":" ++ toString ctx.userId)
                      ((GetGroupRateLimit s.modelRequestRateLimitGroup ctx.userGroup).getD
                        (s.modelRequestRateLimitCount, s.modelRequestRateLimitSuccessCount)).2).2 ++
                     ((recordTokenRateLimitSuccess s ctx bH).2 ++
                      (recordTokenDailySuccess s ctx (recordTokenRateLimitSuccess s ctx bH).1).2)))))
                  from by simp [List.append_assoc]]
                rw [evsAfterNext_append _ _ hnx1, evsAfterNext_append _ _ hnx2,
                  evsAfterNext_append _ _ hnxH, evsAfterNext_cons_next]
                rw [tbEvents_append, tbEvents_append, (recordRedis_evs _ _ _ _ _).2.1,
                  (recordToken_evs _ _ _).1, (recordDaily_evs _ _ _).1]
                rfl
            · have hM : ModelRequestRateLimit s ctx b = (stH, bH, e1 ++ e2 ++ eH) := by
                simp [ModelRequestRateLimit, hw1, hw2, hmod, hre, hwH, hstH]
              rw [hM]
              simp only
              rcases hdH with ⟨_, htrH⟩ | ⟨_, htrH | htrH⟩ | ⟨hsh, htrH⟩
              · rw [htr1, htr2, htrH,
                  evsAfterNext_of_not_mem _ (by simp [hnx1, hnx2, hnxH]), tbEvents_nil]
              · rw [htr1, htr2, htrH,
                  evsAfterNext_of_not_mem _ (by simp [hnx1, hnx2, hnxH]), tbEvents_nil]
              · rw [htr1, htr2, htrH,
                  evsAfterNext_of_not_mem _ (by simp [hnx1, hnx2, hnxH]), tbEvents_nil]
              · have hhs : ¬ ctx.handlerStatus < 400 := by omega
                rw [htr1, htr2, htrH, if_neg hhs]
                rw [show pre1 ++ pre2 ++ (preH ++ [Ev.next] ++ []) =
                    pre1 ++ (pre2 ++ (preH ++ [Ev.next])) from by simp [List.append_assoc]]
                rw [evsAfterNext_append _ _ hnx1, evsAfterNext_append _ _ hnx2,
                  evsAfterNext_append _ _ hnxH, evsAfterNext_cons_next, tbEvents_nil]
          · obtain ⟨preH, habH, hnxH, htbH, hdH⟩ := memoryHandler_shape s ctx b2
              (s.modelRequestRateLimitDurationMinutes * 60)
              ((GetGroupRateLimit s.modelRequestRateLimitGroup ctx.userGroup).getD
                (s.modelRequestRateLimitCount, s.modelRequestRateLimitSuccessCount)).1
              ((GetGroupRateLimit s.modelRequestRateLimitGroup ctx.userGroup).getD
                (s.modelRequestRateLimitCount, s.modelRequestRateLimitSuccessCount)).2
            rcases hwH : memoryRateLimitHandler s ctx b2
              (s.modelRequestRateLimitDurationMinutes * 60)
              ((GetGroupRateLimit s.modelRequestRateLimitGroup ctx.userGroup).getD
                (s.modelRequestRateLimitCount, s.modelRequestRateLimitSuccessCount)).1
              ((GetGroupRateLimit s.modelRequestRateLimitGroup ctx.userGroup).getD
                (s.modelRequestRateLimitCount, s.modelRequestRateLimitSuccessCount)).2
              with ⟨stH, bH, eH⟩
            rw [hwH] at hdH
            simp only at hdH
            by_cases hstH : stH < 400
            · have hM : ModelRequestRateLimit s ctx b =
                  (stH, (recordTokenDailySuccess s ctx (recordTokenRateLimitSuccess s ctx bH).1).1,
                    e1 ++ e2 ++ eH ++ (recordTokenRateLimitSuccess s ctx bH).2 ++
                      (recordTokenDailySuccess s ctx (recordTokenRateLimitSuccess s ctx bH).1).2) := by
                simp [ModelRequestRateLimit, hw1, hw2, hmod, hre, hwH, hstH]
              rw [hM]
              simp only
              rcases hdH with ⟨h4, _⟩ | ⟨hsh, htrH⟩
              · omega
              · have hhs : ctx.handlerStatus < 400 := by omega
                rw [htr1, htr2, htrH, if_pos hhs]
                rw [show pre1 ++ pre2 ++ (preH ++ [Ev.next] ++
                    [Ev.memReq (ModelRequestRateLimitSuccessCountMark ++ toString ctx.userId)
                      ((GetGroupRateLimit s.modelRequestRateLimitGroup ctx.userGroup).getD
                        (s.modelRequestRateLimitCount, s.modelRequestRateLimitSuccessCount)).2
                      (s.modelRequestRateLimitDurationMinutes * 60)]) ++
                    (recordTokenRateLimitSuccess s ctx bH).2 ++
                    (recordTokenDailySuccess s ctx (recordTokenRateLimitSuccess s ctx bH).1).2 =
                  pre1 ++ (pre2 ++ (preH ++ (Ev.next ::
                    ([Ev.memReq (ModelRequestRateLimitSuccessCountMark ++ toString ctx.userId)
                      ((GetGroupRateLimit s.modelRequestRateLimitGroup ctx.userGroup).getD
                        (s.modelRequestRateLimitCount, s.modelRequestRateLimitSuccessCount)).2
                      (s.modelRequestRateLimitDurationMinutes * 60)] ++
                     ((recordTokenRateLimitSuccess s ctx bH).2 ++
                      (recordTokenDailySuccess s ctx (recordTokenRateLimitSuccess s ctx bH).1).2)))))
                  from by simp [List.append_assoc]]
                rw [evsAfterNext_append _ _ hnx1, evsAfterNext_append _ _ hnx2,
                  evsAfterNext_append _ _ hnxH, evsAfterNext_cons_next]
                rw [tbEvents_append, tbEvents_append, tbEvents_cons_memReq, tbEvents_nil,
                  (recordToken_evs _ _ _).1, (recordDaily_evs _ _ _).1]
                rfl
            · have hM : ModelRequestRateLimit s ctx b = (stH, bH, e1 ++ e2 ++ eH) := by
                simp [ModelRequestRateLimit, hw1, hw2, hmod, hre, hwH, hstH]
              rw [hM]
              simp only
              rcases hdH with ⟨_, htrH⟩ | ⟨hsh, htrH⟩
              · rw [htr1, htr2, htrH,
                  evsAfterNext_of_not_mem _ (by simp [hnx1, hnx2, hnxH]), tbEvents_nil]
              · have hhs : ¬ ctx.handlerStatus < 400 := by omega
                rw [htr1, htr2, htrH, if_neg hhs]
                rw [show pre1 ++ pre2 ++ (preH ++ [Ev.next] ++ []) =
                    pre1 ++ (pre2 ++ (preH ++ [Ev.next])) from by simp [List.append_assoc]]
                rw [evsAfterNext_append _ _ hnx1, evsAfterNext_append _ _ hnx2,
                  evsAfterNext_append _ _ hnxH, evsAfterNext_cons_next, tbEvents_nil]
        · by_cases hhs : ctx.handlerStatus < 400
          · have hM : ModelRequestRateLimit s ctx b =
                (ctx.handlerStatus,
                  (recordTokenDailySuccess s ctx (recordTokenRateLimitSuccess s ctx b2).1).1,
                  e1 ++ e2 ++ [Ev.next] ++ (recordTokenRateLimitSuccess s ctx b2).2 ++
                    (recordTokenDailySuccess s ctx (recordTokenRateLimitSuccess s ctx b2).1).2) := by
              simp [ModelRequestRateLimit, hw1, hw2, hmod, hhs]
            rw [hM]
            simp only
            rw [htr1, htr2]
            rw [show pre1 ++ pre2 ++ [Ev.next] ++ (recordTokenRateLimitSuccess s ctx b2).2 ++
                (recordTokenDailySuccess s ctx (recordTokenRateLimitSuccess s ctx b2).1).2 =
              pre1 ++ (pre2 ++ (Ev.next ::
                ((recordTokenRateLimitSuccess s ctx b2).2 ++
                 (recordTokenDailySuccess s ctx (recordTokenRateLimitSuccess s ctx b2).1).2)))
              from by simp [List.append_assoc]]
            rw [evsAfterNext_append _ _ hnx1, evsAfterNext_append _ _ hnx2,
              evsAfterNext_cons_next]
            rw [tbEvents_append, (recordToken_evs _ _ _).1, (recordDaily_evs _ _ _).1]
            rfl
          · have hM : ModelRequestRateLimit s ctx b =
                (ctx.handlerStatus, b2, e1 ++ e2 ++ [Ev.next]) := by
              simp [ModelRequestRateLimit, hw1, hw2, hmod, hhs]
            rw [hM]
            simp only
            rw [htr1, htr2]
            rw [show pre1 ++ pre2 ++ [Ev.next] = pre1 ++ (pre2 ++ [Ev.next])
              from by simp [List.append_assoc]]
            rw [evsAfterNext_append _ _ hnx1, evsAfterNext_append _ _ hnx2,
              evsAfterNext_cons_next, tbEvents_nil]

/-- Claim C6, counterexample: a daily-tier success rejection (success
limit 3 exceeded at a window that has not rolled over) carries the fixed
message 您已达到每日请求数限制, which contains no digit at all — it names
neither the exceeded limit 3 nor the window (86400 seconds, 1440 minutes
or 24 hours). -/
theorem C6_counterexample :
    abortEvents (checkTokenDailyRateLimitRedis sampleSettings
      { emptyBackend with lists := upd emptyBackend.lists "rateLimit:TDRLS:7" [0, 0, 0] }
      10 "7" 0 3 86400).2.2 = [(429, tokenDailySuccessMsg)] ∧
    mentionsNum tokenDailySuccessMsg 3 = false ∧
    mentionsNum tokenDailySuccessMsg 86400 = false ∧
    mentionsNum tokenDailySuccessMsg 1440 = false ∧
    mentionsNum tokenDailySuccessMsg 24 = false ∧
    (tokenDailySuccessMsg.data.any (fun c => c.isDigit)) = false := by
  decide

theorem C6_amended_witness :
    (429, tokenMinuteSuccessMsg sampleSettings 3) ∈
      abortEvents (checkTokenRateLimitRedis sampleSettings
        { emptyBackend with lists := upd emptyBackend.lists "rateLimit:TRLS:7" [0, 0, 0] }
        10 "7" 0 3 60).2.2 ∧
    (mentionsNum (tokenMinuteSuccessMsg sampleSettings 3)
        sampleSettings.tokenRateLimitDurationMinutes = true ∧
      (mentionsNum (tokenMinuteSuccessMsg sampleSettings 3) 3 = true ∨
       mentionsNum (tokenMinuteSuccessMsg sampleSettings 3) 0 = true)) :=
  ⟨by decide,
   (C6_amended sampleSettings
     { emptyBackend with lists := upd emptyBackend.lists "rateLimit:TRLS:7" [0, 0, 0] }
     10 "7" sampleCtx 0 3 60).1 (tokenMinuteSuccessMsg sampleSettings 3) (by decide)⟩

/-- Claim C1, counterexample: a concrete run with every tier enabled
(token id 7, user id 1, handler status 200, fresh backend) records the
legacy per-user counter first, then the key-minute counter, then the
key-daily counter: the recorded-key order is MRRLS, TRLS, TDRLS — not
the key-minute, key-daily, legacy-user order the claim states. -/
theorem C1_counterexample :
    successRecordKeys (evsAfterNext
        (ModelRequestRateLimit sampleSettings sampleCtx emptyBackend).2.2) =
      ["rateLimit:MRRLS:1", "rateLimit:TRLS:7", "rateLimit:TDRLS:7"] ∧
    successRecordKeys (evsAfterNext
        (ModelRequestRateLimit sampleSettings sampleCtx emptyBackend).2.2) ≠
      ["rateLimit:TRLS:7", "rateLimit:TDRLS:7", "rateLimit:MRRLS:1"] := by
  decide

theorem C1_amended_witness :
    ((ModelRequestRateLimit sampleSettings sampleCtx emptyBackend).1 < 400 ∧
      sampleSettings.redisEnabled = true ∧ ¬ sampleCtx.tokenId = 0) ∧
    successRecordKeys (evsAfterNext
        (ModelRequestRateLimit sampleSettings sampleCtx emptyBackend).2.2) =
      ["rateLimit:" ++ ModelRequestRateLimitSuccessCountMark ++ ":" ++ toString sampleCtx.userId,
       "rateLimit:" ++ TokenRateLimitSuccessCountMark ++ ":" ++ toString sampleCtx.tokenId,
       "rateLimit:" ++ TokenDailyRateLimitSuccessCountMark ++ ":" ++ toString sampleCtx.tokenId] :=
  ⟨⟨by decide, rfl, by decide⟩,
   C1_amended sampleSettings sampleCtx emptyBackend rfl rfl rfl rfl
     (by decide) (by decide) (by decide) (by decide) (by decide)⟩

theorem C5_confirmed_witness :
    ((0 : Int) < 5 ∧
      (checkTokenRateLimitRedis sampleSettings emptyBackend 0 "7" 5 5 60).1 = true) ∧
    Ev.tbAllow ("rateLimit:" ++ TokenRateLimitCountMark ++ ":" ++ "7") (5 * 60) 5 60 ∈
      (checkTokenRateLimitRedis sampleSettings emptyBackend 0 "7" 5 5 60).2.2 :=
  ⟨⟨by decide, by decide⟩,
   (C5_confirmed.1 sampleSettings emptyBackend 0 "7" 5 5 60 (by decide)).2 (by decide)⟩
